import Mathlib

/-!
Verification development for the `dvmcfggen` configuration generator
(`src/tools/dvmcfggen`): the identity-table / channel-plan engine
(`iden_table.py`), the protocol identifier validators (`network_ids.py`),
the configuration document store (`config_manager.py`), the templates
(`templates.py`) and the trunked-system builder (`trunking_manager.py`).

Modelling conventions:
* Python `int` is `Int`.
* Python `float` is modelled as an exact rational (`ℚ`); the repository only
  ever stores decimal literals such as `6.25` or `-45.0` in these fields, and
  every claim-relevant computation stays far below the 2^53 range where the
  dyadic rounding of IEEE doubles could diverge from exact rational
  arithmetic.  `int(x)` on a float is truncation toward zero (`pyTrunc`),
  and `f"{x:.nf}"` formatting rounds half-to-even (`rhe`).
* Fallible Python code (a `raise`) is `Except`; the exact exception message
  strings are abbreviated to short tags where no claim depends on them.
* Python strings are Lean `String`s; where proofs must take strings apart the
  model works on their character lists.
-/

namespace DvmSpec

/-! ## Decimal digit rendering and parsing (models Python `str`/`int`/`float`) -/

/-- Character for a single decimal digit value. -/
def decChar (d : Nat) : Char := Char.ofNat (48 + d)

/-- Fuel-driven digit rendering: one digit per division by ten, with the
recursion depth bounded structurally by `fuel`. -/
def natCharsF : Nat → Nat → List Char
  | 0, n => [decChar n]
  | fuel + 1, n =>
    if n < 10 then [decChar n]
    else natCharsF fuel (n / 10) ++ [decChar (n % 10)]

/-- Decimal rendering of a natural number, most significant digit first; the
number itself serves as structural recursion fuel (`n / 10 < n` whenever
`10 ≤ n`, so the fuel never runs out — `natChars_eq` recovers the direct
recursion). -/
def natChars (n : Nat) : List Char := natCharsF n n

/-- Decimal rendering of a Python integer (`str(i)`), as characters. -/
def intChars (i : Int) : List Char :=
  (if i < 0 then [Char.ofNat 45] else []) ++ natChars i.natAbs

/-- Decimal rendering of a Python integer (`str(i)`). -/
def intStr (i : Int) : String := String.mk (intChars i)

/-- Numeric value of a digit character. -/
def charVal (c : Char) : Nat := c.toNat - 48

/-- Value of a list of decimal digit characters read left to right. -/
def charsVal (l : List Char) : Nat := l.foldl (fun acc c => 10 * acc + charVal c) 0

/-- The last `w` decimal digits of `n`, most significant first, with leading
zeros kept (used for the fractional part of Python `f"{x:.wf}"`). -/
def padChars (n : Nat) : Nat → List Char
  | 0 => []
  | w + 1 => padChars (n / 10) w ++ [decChar (n % 10)]

/-- Python `f"{i:02d}"`: decimal digits zero-padded on the left to width 2. -/
def fmt02Chars (i : Nat) : List Char :=
  List.replicate (2 - (natChars i).length) (Char.ofNat 48) ++ natChars i

/-- Python `f"{i:02d}"` as a string. -/
def fmt02 (i : Nat) : String := String.mk (fmt02Chars i)

/-- Truncation of a rational toward zero: Python `int(x)` on a float. -/
def pyTrunc (q : ℚ) : Int := if 0 ≤ q then ⌊q⌋ else -⌊-q⌋

/-- Round half to even to an integer: the rounding used by Python float
formatting `f"{x:.nf}"` (on our exactly-represented decimal values). -/
def rhe (q : ℚ) : Int :=
  if q - ⌊q⌋ < 1 / 2 then ⌊q⌋
  else if 1 / 2 < q - ⌊q⌋ then ⌊q⌋ + 1
  else if ⌊q⌋ % 2 = 0 then ⌊q⌋ else ⌊q⌋ + 1

/-- Rounding a rational to `d` decimal places (the value that survives a
`f"{x:.df}"` format / parse round trip). -/
def roundTo (d : Nat) (q : ℚ) : ℚ := (rhe (q * 10 ^ d) : ℚ) / 10 ^ d

/-- Python `f"{x:.df}"` where the scaled-and-rounded value is the integer `n`:
optional minus sign, integer digits, and for `d > 0` a point followed by
exactly `d` fractional digits. -/
def fmtFixedChars (n : Int) (d : Nat) : List Char :=
  (if n < 0 then [Char.ofNat 45] else []) ++
    natChars (n.natAbs / 10 ^ d) ++
    (if d = 0 then [] else Char.ofNat 46 :: padChars (n.natAbs % 10 ^ d) d)

/-- Python fixed-point float formatting `f"{q:.df}"` (a negative value that
rounds to zero is rendered without the sign; Python would keep a `-0.00`
artifact, which parses back to the same number). -/
def fmtFixed (q : ℚ) (d : Nat) : String := String.mk (fmtFixedChars (rhe (q * 10 ^ d)) d)

/-! ## Python-style parsing (`int(s)`, `float(s)`) over character lists -/

/-- Python whitespace characters stripped by `str.strip()`. -/
def pyWs (c : Char) : Bool :=
  c = Char.ofNat 32 ∨ c = Char.ofNat 9 ∨ c = Char.ofNat 10 ∨
    c = Char.ofNat 13 ∨ c = Char.ofNat 11 ∨ c = Char.ofNat 12

/-- Python `str.strip()` on a character list. -/
def pyStrip (l : List Char) : List Char :=
  ((l.dropWhile pyWs).reverse.dropWhile pyWs).reverse

/-- Split a character list at every occurrence of the separator (Python
`str.split(sep)` for a one-character separator: no merging of separators). -/
def splitChar (sep : Char) : List Char → List (List Char)
  | [] => [[]]
  | c :: rest =>
    if c = sep then [] :: splitChar sep rest
    else
      match splitChar sep rest with
      | [] => [[c]]
      | p :: ps => (c :: p) :: ps

/-- Parse an unsigned run of decimal digits (helper for `int(s)`). -/
def parseDigits (l : List Char) : Option Nat :=
  if l ≠ [] ∧ l.all Char.isDigit then some (charsVal l) else none

/-- Python `int(s)`: optional surrounding whitespace, optional sign, then
decimal digits (the underscore-separator and unicode-digit forms accepted by
CPython never occur in this repository's files and are not modelled). -/
def pyInt? (l : List Char) : Option Int :=
  match pyStrip l with
  | c :: rest =>
    if c = Char.ofNat 45 then
      match parseDigits rest with
      | some n => some (-(n : Int))
      | none => none
    else if c = Char.ofNat 43 then
      match parseDigits rest with
      | some n => some ((n : Int))
      | none => none
    else
      match parseDigits (c :: rest) with
      | some n => some ((n : Int))
      | none => none
  | [] => none

/-- Unsigned decimal float body: `digits`, `digits.`, `.digits` or
`digits.digits` (helper for `float(s)`). -/
def parseFloatBody (l : List Char) : Option ℚ :=
  let intPart := l.takeWhile Char.isDigit
  match l.dropWhile Char.isDigit with
  | [] => if intPart = [] then none else some (charsVal intPart : ℚ)
  | c :: frac =>
    if c = Char.ofNat 46 ∧ frac.all Char.isDigit ∧ (intPart ≠ [] ∨ frac ≠ []) then
      some ((charsVal intPart : ℚ) + (charsVal frac : ℚ) / 10 ^ frac.length)
    else none

/-- Python `float(s)` restricted to plain decimal notation: optional
surrounding whitespace, optional sign, digits with an optional point (the
exponent, infinity and NaN forms never occur in this repository's files and
are not modelled). -/
def pyFloat? (l : List Char) : Option ℚ :=
  match pyStrip l with
  | c :: rest =>
    if c = Char.ofNat 45 then (parseFloatBody rest).map Neg.neg
    else if c = Char.ofNat 43 then parseFloatBody rest
    else parseFloatBody (c :: rest)
  | [] => none

/-! ## `iden_table.py`: identity table entries and the persisted plan file -/

/-- `MAX_FREQ_GAP`: 30 MHz maximum offset from the base frequency. -/
def MAX_FREQ_GAP : Int := 30000000

/-- The distinct `ValueError` / `ZeroDivisionError` raises of `iden_table.py`
(the formatted message text of each `raise` carries no extra information and
is elided). -/
inductive CalcErr where
  | freqBelowBase
  | freqTooFarAboveBase
  | divisionByZero
  | negativeRxFrequency
  | invalidChannelId
  | unknownPreset
  deriving DecidableEq, Repr

/-- `IdenEntry`: one identity table entry.  `base_freq` is Hz (int), `spacing`
and `bandwidth` are kHz, `input_offset` is MHz (Python floats, modelled as
exact rationals). -/
structure IdenEntry where
  channel_id : Int
  base_freq : Int
  spacing : ℚ
  input_offset : ℚ
  bandwidth : ℚ
  deriving DecidableEq, Repr

/-- `IdenEntry.to_line`: one `iden_table.dat` data line,
`f"{channel_id},{base_freq},{spacing:.2f},{input_offset:.5f},{bandwidth:.1f},"`. -/
def IdenEntry.toLineChars (e : IdenEntry) : List Char :=
  intChars e.channel_id ++ Char.ofNat 44 :: intChars e.base_freq ++
    Char.ofNat 44 :: fmtFixedChars (rhe (e.spacing * 10 ^ 2)) 2 ++
    Char.ofNat 44 :: fmtFixedChars (rhe (e.input_offset * 10 ^ 5)) 5 ++
    Char.ofNat 44 :: fmtFixedChars (rhe (e.bandwidth * 10 ^ 1)) 1 ++ [Char.ofNat 44]

/-- `IdenEntry.to_line` as a string. -/
def IdenEntry.to_line (e : IdenEntry) : String := String.mk e.toLineChars

/-- `IdenEntry.calculate_channel_number`: fails below base or more than
`MAX_FREQ_GAP` above it; otherwise divides the offset from base by
`int(spacing * 1000)` Hz and truncates toward zero (`int(root / space)`;
Python raises `ZeroDivisionError` when `int(spacing * 1000) == 0`). -/
def IdenEntry.calculate_channel_number (e : IdenEntry) (tx_freq : Int) : Except CalcErr Int :=
  if tx_freq < e.base_freq then .error .freqBelowBase
  else if tx_freq > e.base_freq + MAX_FREQ_GAP then .error .freqTooFarAboveBase
  else
    let space_hz : Int := pyTrunc (e.spacing * 1000)
    let root_freq : Int := tx_freq - e.base_freq
    if space_hz = 0 then .error .divisionByZero
    else .ok (pyTrunc ((root_freq : ℚ) / (space_hz : ℚ)))

/-- `IdenEntry.calculate_rx_frequency`: adds `int(input_offset * 1000000)` Hz
to the TX frequency; fails only when the result is negative. -/
def IdenEntry.calculate_rx_frequency (e : IdenEntry) (tx_freq : Int) : Except CalcErr Int :=
  let offset_hz : Int := pyTrunc (e.input_offset * 1000000)
  let rx_freq : Int := tx_freq + offset_hz
  if rx_freq < 0 then .error .negativeRxFrequency
  else .ok rx_freq

/-- `IdenTable`: the `channel_id -> IdenEntry` dictionary, modelled as an
association list in insertion order (Python dicts preserve insertion order). -/
structure IdenTable where
  entries : List (Int × IdenEntry)
  deriving DecidableEq, Repr

/-- Dictionary update: overwrite in place if the key exists, else append
(Python dict assignment keeps the original position of an existing key). -/
def dictSet (l : List (Int × IdenEntry)) (k : Int) (e : IdenEntry) :
    List (Int × IdenEntry) :=
  match l with
  | [] => [(k, e)]
  | (k', e') :: rest => if k' = k then (k, e) :: rest else (k', e') :: dictSet rest k e

/-- `IdenTable.add_entry`: rejects a channel id outside 0..15, then stores the
entry under its channel id. -/
def IdenTable.add_entry (t : IdenTable) (e : IdenEntry) : Except CalcErr IdenTable :=
  if e.channel_id < 0 ∨ e.channel_id > 15 then .error .invalidChannelId
  else .ok ⟨dictSet t.entries e.channel_id e⟩

/-- `IdenTable.get_entry` / dictionary lookup. -/
def IdenTable.get_entry (t : IdenTable) (channel_id : Int) : Option IdenEntry :=
  match t.entries.find? (fun p => p.1 = channel_id) with
  | some p => some p.2
  | none => none

/-- Well-formedness every table built through `add_entry` has: keys are
distinct and each entry is stored under its own channel id. -/
def IdenTable.WF (t : IdenTable) : Prop :=
  (t.entries.map Prod.fst).Nodup ∧ ∀ p ∈ t.entries, p.1 = p.2.channel_id

/-- The keys of the table in ascending order (`sorted(self.entries.keys())`). -/
def IdenTable.sortedKeys (t : IdenTable) : List Int :=
  (t.entries.map Prod.fst).insertionSort (· ≤ ·)

/-- The entries the save loop visits, in ascending key order
(`self.entries[ch_id]` is total on the dict's own keys, hence `filterMap`). -/
def IdenTable.savedEntries (t : IdenTable) : List IdenEntry :=
  t.sortedKeys.filterMap t.get_entry

/-- The five-comment-line header... in fact six lines, exactly the six
`f.write` calls of `IdenTable.save` before the data loop. -/
def idenHeaderLines : List String :=
  ["#",
   "# Identity Table - Frequency Bandplan",
   "# Generated by DVMCfg",
   "#",
   "# ChId,Base Freq (Hz),Spacing (kHz),Input Offset (MHz),Bandwidth (kHz),",
   "#"]

/-- `IdenTable.save`: the sequence of lines written to `iden_table.dat`
(each `f.write` in the source appends one line and a newline). -/
def IdenTable.saveLines (t : IdenTable) : List String :=
  idenHeaderLines ++ t.savedEntries.map IdenEntry.to_line

/-- One step of the `IdenTable.load` line loop.  The running state is the
table under construction and the warnings printed so far (a warning records
the offending line).  A line with fewer than five comma-separated nonempty
fields is skipped silently; a parse failure or an `add_entry` failure inside
the `len >= 5` branch is caught and recorded as a warning. -/
def loadStep (acc : IdenTable × List String) (line : String) : IdenTable × List String :=
  let l := pyStrip line.data
  if l = [] ∨ l.head? = some (Char.ofNat 35) then acc
  else
    match ((splitChar (Char.ofNat 44) l).map pyStrip).filter (· ≠ []) with
    | p0 :: p1 :: p2 :: p3 :: p4 :: _ =>
      match pyInt? p0, pyInt? p1, pyFloat? p2, pyFloat? p3, pyFloat? p4 with
      | some cid, some bf, some sp, some off, some bw =>
        match acc.1.add_entry ⟨cid, bf, sp, off, bw⟩ with
        | .ok t => (t, acc.2)
        | .error _ => (acc.1, acc.2 ++ [line])
      | _, _, _, _, _ => (acc.1, acc.2 ++ [line])
    | _ => acc

/-- `IdenTable.load` over the lines of a file: starts from a cleared table,
processes every line, and returns the table together with the recorded
warnings (load never aborts). -/
def loadLines (lines : List String) : IdenTable × List String :=
  lines.foldl loadStep (⟨[]⟩, [])

/-- A band preset from `BAND_PRESETS` (the `name` display string is omitted;
no claim reads it). -/
structure BandPreset where
  base_freq : Int
  spacing : ℚ
  input_offset : ℚ
  bandwidth : ℚ
  tx_lo : ℚ
  tx_hi : ℚ
  rx_lo : ℚ
  rx_hi : ℚ
  deriving DecidableEq, Repr

/-- The six built-in band presets of `BAND_PRESETS`, in declaration order. -/
def BAND_PRESETS : List (String × BandPreset) :=
  [("800mhz", ⟨851006250, 6.25, -45.0, 12.5, 851.0, 870.0, 806.0, 825.0⟩),
   ("900mhz", ⟨935001250, 6.25, -39.0, 12.5, 935.0, 960.0, 896.0, 901.0⟩),
   ("uhf",    ⟨450000000, 6.25, 5.0, 12.5, 450.0, 470.0, 455.0, 475.0⟩),
   ("vhf",    ⟨146000000, 6.25, 0.6, 12.5, 146.0, 148.0, 146.6, 148.6⟩),
   ("vhf-hi", ⟨150000000, 6.25, 0.6, 12.5, 150.0, 174.0, 155.0, 179.0⟩),
   ("uhf-ham", ⟨430000000, 6.25, 5.0, 12.5, 430.0, 450.0, 435.0, 455.0⟩)]

/-- `create_iden_entry_from_preset`: build an `IdenEntry` from a preset. -/
def create_iden_entry_from_preset (channel_id : Int) (preset : String) :
    Except CalcErr IdenEntry :=
  match (BAND_PRESETS.find? (fun p => p.1 = preset)) with
  | none => .error .unknownPreset
  | some (_, band) =>
    .ok ⟨channel_id, band.base_freq, band.spacing, band.input_offset, band.bandwidth⟩

/-! ## `network_ids.py`: protocol identifier validators

The validators take Python ints; the `isinstance(x, int)` guards at the top of
each function are vacuous under this typing and are not modelled.  Messages
embed only the (constant) bounds, so they are written out literally exactly as
the f-strings produce them. -/

/-- `DMRSiteModel` enum. -/
inductive DMRSiteModel where
  | TINY
  | SMALL
  | LARGE
  | HUGE
  deriving DecidableEq, Repr

/-- `DMR_SITE_MODEL_LIMITS[model]['netId']`. -/
def dmrNetIdLimits : DMRSiteModel → Int × Int
  | .TINY => (1, 0x1FF)
  | .SMALL => (1, 0x7F)
  | .LARGE => (1, 0x1F)
  | .HUGE => (1, 0x03)

/-- `DMR_SITE_MODEL_LIMITS[model]['siteId']`. -/
def dmrSiteIdLimits : DMRSiteModel → Int × Int
  | .TINY => (1, 0x07)
  | .SMALL => (1, 0x1F)
  | .LARGE => (1, 0x7F)
  | .HUGE => (1, 0x3FF)

/-- The `.name` attribute of a `DMRSiteModel` member. -/
def DMRSiteModel.pyName : DMRSiteModel → String
  | .TINY => "TINY"
  | .SMALL => "SMALL"
  | .LARGE => "LARGE"
  | .HUGE => "HUGE"

/-- Hex digits of a natural number, uppercase, most significant first
(Python `f"{n:X}"` for nonnegative `n`). -/
def hexChars (n : Nat) : List Char :=
  if n < 16 then [if n < 10 then decChar n else Char.ofNat (55 + n)]
  else hexChars (n / 16) ++ [if n % 16 < 10 then decChar (n % 16) else Char.ofNat (55 + n % 16)]
termination_by n
decreasing_by exact Nat.div_lt_self (by omega) (by omega)

/-- Python `f"{n:X}"` for a nonnegative int. -/
def hexStr (n : Int) : String := String.mk (hexChars n.natAbs)

/-- `validate_dmr_color_code`. -/
def validate_dmr_color_code (color_code : Int) : Bool × String :=
  if color_code < 0 ∨ color_code > 15 then
    (false, "Color code must be between 0 and 15")
  else (true, "")

/-- `validate_dmr_network_id`: bounds depend on the site model. -/
def validate_dmr_network_id (net_id : Int) (site_model : DMRSiteModel) : Bool × String :=
  let lim := dmrNetIdLimits site_model
  if net_id < lim.1 ∨ net_id > lim.2 then
    (false, "Network ID for " ++ site_model.pyName ++ " site model must be between " ++
      intStr lim.1 ++ " and " ++ intStr lim.2 ++ " (0x" ++ hexStr lim.2 ++ ")")
  else (true, "")

/-- `validate_dmr_site_id`: bounds depend on the site model. -/
def validate_dmr_site_id (site_id : Int) (site_model : DMRSiteModel) : Bool × String :=
  let lim := dmrSiteIdLimits site_model
  if site_id < lim.1 ∨ site_id > lim.2 then
    (false, "Site ID for " ++ site_model.pyName ++ " site model must be between " ++
      intStr lim.1 ++ " and " ++ intStr lim.2 ++ " (0x" ++ hexStr lim.2 ++ ")")
  else (true, "")

/-- `validate_p25_nac`: NAC must lie in `0x000 .. 0xF7F`. -/
def validate_p25_nac (nac : Int) : Bool × String :=
  if nac < 0x000 ∨ nac > 0xF7F then
    (false, "NAC must be between 0 (0x000) and 3967 (0xF7F)")
  else (true, "")

/-- `validate_p25_network_id` (WACN): `1 .. 0xFFFFE`. -/
def validate_p25_network_id (net_id : Int) : Bool × String :=
  if net_id < 1 ∨ net_id > 0xFFFFE then
    (false, "Network ID must be between 1 and 1048574 (0xFFFFE)")
  else (true, "")

/-- `validate_p25_system_id`: `1 .. 0xFFE`. -/
def validate_p25_system_id (sys_id : Int) : Bool × String :=
  if sys_id < 1 ∨ sys_id > 0xFFE then
    (false, "System ID must be between 1 and 4094 (0xFFE)")
  else (true, "")

/-- `validate_nxdn_ran`: `0 .. 63`. -/
def validate_nxdn_ran (ran : Int) : Bool × String :=
  if ran < 0 ∨ ran > 63 then
    (false, "RAN must be between 0 and 63")
  else (true, "")

/-! ## `config_manager.py`: the hierarchical configuration document

A configuration document is a YAML-like tree of dictionaries whose leaves are
strings, ints, bools, floats or lists.  Saving to and loading from a `.yml`
file round-trips these values unchanged, so serialization is modelled as the
identity and a saved file stores the document itself. -/

/-- A YAML-like configuration value. -/
inductive CVal where
  | vstr (s : String)
  | vint (n : Int)
  | vbool (b : Bool)
  | vrat (q : ℚ)
  | vdict (entries : List (String × CVal))
  | vlist (items : List CVal)
  deriving Repr

/-! Structural equality of configuration values, modelling Python `==` on the
loaded YAML values.  (Python's numeric cross-type equalities such as
`1 == 1.0` are not modelled; every comparison the claims exercise is between
two ints, two strings or a value and `None`.) -/
mutual
def cvalEq : CVal → CVal → Bool
  | .vstr a, .vstr b => a == b
  | .vint a, .vint b => a == b
  | .vbool a, .vbool b => a == b
  | .vrat a, .vrat b => a == b
  | .vdict a, .vdict b => entsEq a b
  | .vlist a, .vlist b => itemsEq a b
  | _, _ => false
def entsEq : List (String × CVal) → List (String × CVal) → Bool
  | [], [] => true
  | (k, v) :: r, (k2, v2) :: r2 => k == k2 && cvalEq v v2 && entsEq r r2
  | _, _ => false
def itemsEq : List CVal → List CVal → Bool
  | [], [] => true
  | v :: r, v2 :: r2 => cvalEq v v2 && itemsEq r r2
  | _, _ => false
end

/-- Python `==` where either side may be `None` (a missing `get` result). -/
def optCvalEq : Option CVal → Option CVal → Bool
  | none, none => true
  | some a, some b => cvalEq a b
  | _, _ => false

/-- Python truthiness of a `get` result (`None`, `False`, `0`, `0.0`, `""`,
`{}` and `[]` are falsy). -/
def pyTruthy : Option CVal → Bool
  | none => false
  | some (.vstr s) => s ≠ ""
  | some (.vint n) => n ≠ 0
  | some (.vbool b) => b
  | some (.vrat q) => q ≠ 0
  | some (.vdict d) => !d.isEmpty
  | some (.vlist l) => !l.isEmpty

/-- Association-list lookup for a dictionary node. -/
def dictFind (entries : List (String × CVal)) (k : String) : Option CVal :=
  match entries with
  | [] => none
  | (k2, v) :: rest => if k2 = k then some v else dictFind rest k

/-- Dictionary assignment: overwrite in place if the key exists, else append
(Python dict assignment keeps the original position of an existing key). -/
def dictPut (entries : List (String × CVal)) (k : String) (v : CVal) :
    List (String × CVal) :=
  match entries with
  | [] => [(k, v)]
  | (k2, v2) :: rest => if k2 = k then (k, v) :: rest else (k2, v2) :: dictPut rest k v

/-- Python's `s.split(".")` on a string (via the structural `splitChar`, so
that concrete key paths evaluate in the kernel). -/
def splitDot (s : String) : List String :=
  (splitChar '.' s.data).map (fun l => String.mk l)

/-- `DVMConfig.get` along an already-split key path: descend while the current
node is a dict containing the key, else return the default (`none`). -/
def getPath (c : CVal) : List String → Option CVal
  | [] => some c
  | k :: rest =>
    match c with
    | .vdict entries =>
      match dictFind entries k with
      | some v => getPath v rest
      | none => none
    | _ => none

/-- `DVMConfig.get(key_path)`: split on dots, then descend. -/
def cget (c : CVal) (key_path : String) : Option CVal :=
  getPath c (splitDot key_path)

/-- `DVMConfig.get(key_path, default)`. -/
def cgetD (c : CVal) (key_path : String) (default : CVal) : CVal :=
  (cget c key_path).getD default

/-- `DVMConfig.set` along an already-split key path: intermediate keys are
created as empty dicts when missing; descending into an existing non-dict
value is a `TypeError` in Python (it surfaces at the next subscript) and is
modelled as an error.  Assignment to the last key overwrites. -/
def setPath (c : CVal) (keys : List String) (v : CVal) : Except String CVal :=
  match keys with
  | [] => .error "TypeError"
  | [k] =>
    match c with
    | .vdict entries => .ok (.vdict (dictPut entries k v))
    | _ => .error "TypeError"
  | k :: rest =>
    match c with
    | .vdict entries =>
      match dictFind entries k with
      | some child => do
        let child2 ← setPath child rest v
        return .vdict (dictPut entries k child2)
      | none => do
        let child2 ← setPath (.vdict []) rest v
        return .vdict (dictPut entries k child2)
    | _ => .error "TypeError"

/-- `DVMConfig.set(key_path, value)`. -/
def cset (c : CVal) (key_path : String) (v : CVal) : Except String CVal :=
  setPath c (splitDot key_path) v

/-! ### `ConfigValidator` -/

/-- A nonempty run of at most three characters, all decimal digits (one
`\d{1,3}` regex group followed by a forced `.`). -/
def digits13 (s : String) : Bool :=
  s.data ≠ [] ∧ s.data.length ≤ 3 ∧ s.data.all Char.isDigit

/-- Whether `re.match(r"^(\d{1,3}\.){3}\d{1,3}$"-less-the-anchor, ip)`
succeeds.  `re.match` anchors only at the start and the pattern has no `$`,
so the first three dot-separated fields must be 1-3 digit runs and the fourth
field need only begin with a digit; trailing text (including further dots) is
accepted by the regex. -/
def ipRegexMatch (ip : String) : Bool :=
  match splitDot ip with
  | a :: b :: c :: d :: _ =>
    digits13 a && digits13 b && digits13 c &&
      (match d.data with
       | ch :: _ => ch.isDigit
       | [] => false)
  | _ => false

/-- The short-circuiting `all(0 <= int(part) <= 255 for part in parts)`:
`int(part)` on a non-numeric part raises `ValueError`. -/
def ipPartsCheck : List String → Except String Bool
  | [] => .ok true
  | p :: rest =>
    match pyInt? p.data with
    | none => .error "ValueError"
    | some v => if 0 ≤ v ∧ v ≤ 255 then ipPartsCheck rest else .ok false

/-- `ConfigValidator.validate_ip_address`. -/
def validate_ip_address (ip : String) : Except String Bool :=
  if ip = "0.0.0.0" ∨ ip = "localhost" then .ok true
  else if ¬ ipRegexMatch ip then .ok false
  else ipPartsCheck (splitDot ip)

/-- `ConfigValidator.validate_port`. -/
def validate_port (port : Int) : Bool := 1 ≤ port ∧ port ≤ 65535

/-- `ConfigValidator.validate_hex_key`. -/
def validate_hex_key (key : String) (required_length : Nat) : Bool :=
  key.data.length = required_length ∧
    key.data.all (fun c => c.isDigit ∨ (65 ≤ c.toNat ∧ c.toNat ≤ 70) ∨
      (97 ≤ c.toNat ∧ c.toNat ≤ 102))

/-- `ConfigValidator.validate_range`. -/
def validate_range (value min_val max_val : Int) : Bool :=
  min_val ≤ value ∧ value ≤ max_val

/-- `ConfigValidator.validate_identity`. -/
def validate_identity (identity : String) : Bool :=
  0 < identity.data.length ∧ identity.data.length ≤ 32

/-- `ConfigValidator.validate_callsign`. -/
def validate_callsign (callsign : String) : Bool :=
  0 < callsign.data.length ∧ callsign.data.length ≤ 16

/-! ### `DVMConfig.validate`

The body appends error strings in source order; it is split here into one
definition per source paragraph, concatenated at the end in the same order.
A check that feeds a fetched value into an operation requiring another type
(`re.match` on a non-string, an integer comparison on a non-int, `len` of a
non-string) would raise in Python and is modelled as `.error`. -/

/-- Coerce a fetched value to a string (a non-string raises downstream). -/
def asStr : CVal → Except String String
  | .vstr s => .ok s
  | _ => .error "TypeError"

/-- Coerce a fetched value to an int (a non-int raises downstream; Python
bools are ints but no claim stores a bool in a numeric field). -/
def asInt : CVal → Except String Int
  | .vint n => .ok n
  | _ => .error "TypeError"

/-- The pre-shared-key sub-check of the network section (active only when
`network.encrypted` is truthy). -/
def pskCheck (c : CVal) : Except String (List String) :=
  if pyTruthy (cget c "network.encrypted") then do
    let psk ← asStr (cgetD c "network.presharedKey" (.vstr ""))
    pure (if ¬ validate_hex_key psk 64 then
      ["Invalid network.presharedKey (must be 64 hex characters)"] else [])
  else pure []

/-- Network section checks of `DVMConfig.validate` (address, port and
pre-shared key, active only when `network.enable` is truthy; fetches and
checks happen in source order, the error lists are appended in that order). -/
def networkChecks (c : CVal) : Except String (List String) :=
  if pyTruthy (cget c "network.enable") then do
    let addr ← asStr (cgetD c "network.address" (.vstr ""))
    let addrOk ← validate_ip_address addr
    let port ← asInt (cgetD c "network.port" (.vint 0))
    let e3 ← pskCheck c
    pure ((if ¬ addrOk then ["Invalid network.address"] else []) ++
      (if ¬ validate_port port then ["Invalid network.port"] else []) ++ e3)
  else pure []

/-- The RPC address sub-check (only when the fetched value is truthy). -/
def rpcAddrCheck (c : CVal) : Except String (List String) :=
  if pyTruthy (some (cgetD c "network.rpcAddress" (.vstr ""))) then do
    let rpcAddr ← asStr (cgetD c "network.rpcAddress" (.vstr ""))
    let ok ← validate_ip_address rpcAddr
    pure (if ¬ ok then ["Invalid network.rpcAddress"] else [])
  else pure []

/-- The RPC port sub-check (only when the fetched value is truthy). -/
def rpcPortCheck (c : CVal) : Except String (List String) :=
  if pyTruthy (some (cgetD c "network.rpcPort" (.vint 0))) then do
    let rpcPort ← asInt (cgetD c "network.rpcPort" (.vint 0))
    pure (if ¬ validate_port rpcPort then ["Invalid network.rpcPort"] else [])
  else pure []

/-- RPC checks of `DVMConfig.validate`. -/
def rpcChecks (c : CVal) : Except String (List String) := do
  let e1 ← rpcAddrCheck c
  let e2 ← rpcPortCheck c
  pure (e1 ++ e2)

/-- REST API checks of `DVMConfig.validate` (active only when
`network.restEnable` is truthy). -/
def restChecks (c : CVal) : Except String (List String) :=
  if pyTruthy (cget c "network.restEnable") then do
    let addr ← asStr (cgetD c "network.restAddress" (.vstr ""))
    let addrOk ← validate_ip_address addr
    let port ← asInt (cgetD c "network.restPort" (.vint 0))
    pure ((if ¬ addrOk then ["Invalid network.restAddress"] else []) ++
      (if ¬ validate_port port then ["Invalid network.restPort"] else []))
  else pure []

/-- System identity check of `DVMConfig.validate`. -/
def identityChecks (c : CVal) : Except String (List String) := do
  let identity ← asStr (cgetD c "system.identity" (.vstr ""))
  pure (if ¬ validate_identity identity then ["Invalid system.identity"] else [])

/-- Color code / NAC / RAN range checks of `DVMConfig.validate`. -/
def codeChecks (c : CVal) : Except String (List String) := do
  let colorCode ← asInt (cgetD c "system.config.colorCode" (.vint 1))
  let nac ← asInt (cgetD c "system.config.nac" (.vint 0))
  let ran ← asInt (cgetD c "system.config.ran" (.vint 0))
  pure ((if ¬ validate_range colorCode 0 15 then
      ["Invalid system.config.colorCode (must be 0-15)"] else []) ++
    (if ¬ validate_range nac 0 0xFFF then
      ["Invalid system.config.nac (must be 0-4095)"] else []) ++
    (if ¬ validate_range ran 0 63 then
      ["Invalid system.config.ran (must be 0-63)"] else []))

/-- CW ID check of `DVMConfig.validate`. -/
def cwChecks (c : CVal) : Except String (List String) :=
  if pyTruthy (cget c "system.cwId.enable") then do
    let callsign ← asStr (cgetD c "system.cwId.callsign" (.vstr ""))
    pure (if ¬ validate_callsign callsign then ["Invalid system.cwId.callsign"] else [])
  else pure []

/-- Modem level checks of `DVMConfig.validate`. -/
def modemChecks (c : CVal) : Except String (List String) := do
  let rxLevel ← asInt (cgetD c "system.modem.rxLevel" (.vint 0))
  let txLevel ← asInt (cgetD c "system.modem.txLevel" (.vint 0))
  pure ((if ¬ validate_range rxLevel 0 100 then
      ["Invalid system.modem.rxLevel (must be 0-100)"] else []) ++
    (if ¬ validate_range txLevel 0 100 then
      ["Invalid system.modem.txLevel (must be 0-100)"] else []))

/-- LLA key check of `DVMConfig.validate` (only when the key is truthy). -/
def llaChecks (c : CVal) : Except String (List String) :=
  if pyTruthy (some (cgetD c "system.config.secure.key" (.vstr ""))) then do
    let key ← asStr (cgetD c "system.config.secure.key" (.vstr ""))
    pure (if ¬ validate_hex_key key 32 then
      ["Invalid system.config.secure.key (must be 32 hex characters)"] else [])
  else pure []

/-- `DVMConfig.validate`: all checks, appended in source order. -/
def validate (c : CVal) : Except String (List String) := do
  let e1 ← networkChecks c
  let e2 ← rpcChecks c
  let e3 ← restChecks c
  let e4 ← identityChecks c
  let e5 ← codeChecks c
  let e6 ← cwChecks c
  let e7 ← modemChecks c
  let e8 ← llaChecks c
  return e1 ++ e2 ++ e3 ++ e4 ++ e5 ++ e6 ++ e7 ++ e8

/-! ## `templates.py`: configuration templates -/

/-- `get_minimal_fallback_config` (the Python `None` value never occurs in
the fallback document, and `0.0` floats appear only in `system.info`). -/
def get_minimal_fallback_config : CVal :=
  .vdict [
    ("daemon", .vbool true),
    ("log", .vdict [
      ("displayLevel", .vint 1), ("fileLevel", .vint 1), ("filePath", .vstr "."),
      ("activityFilePath", .vstr "."), ("fileRoot", .vstr "DVM")]),
    ("network", .vdict [
      ("enable", .vbool true), ("id", .vint 100000), ("address", .vstr "127.0.0.1"),
      ("port", .vint 62031), ("password", .vstr "PASSWORD"),
      ("rpcAddress", .vstr "127.0.0.1"), ("rpcPort", .vint 9890),
      ("rpcPassword", .vstr "ULTRA-VERY-SECURE-DEFAULT")]),
    ("system", .vdict [
      ("identity", .vstr "DVM"), ("timeout", .vint 180), ("duplex", .vbool true),
      ("modeHang", .vint 10), ("rfTalkgroupHang", .vint 10),
      ("activeTickDelay", .vint 5), ("idleTickDelay", .vint 5),
      ("info", .vdict [
        ("latitude", .vrat 0), ("longitude", .vrat 0), ("height", .vint 1),
        ("power", .vint 0), ("location", .vstr "Anywhere")]),
      ("config", .vdict [
        ("authoritative", .vbool true), ("supervisor", .vbool false),
        ("channelId", .vint 1), ("channelNo", .vint 1), ("serviceClass", .vint 1),
        ("siteId", .vint 1), ("dmrNetId", .vint 1), ("dmrColorCode", .vint 1),
        ("p25NAC", .vint 0x293), ("p25NetId", .vint 0xBB800), ("nxdnRAN", .vint 1)]),
      ("cwId", .vdict [
        ("enable", .vbool true), ("time", .vint 10), ("callsign", .vstr "MYCALL")]),
      ("modem", .vdict [
        ("protocol", .vdict [
          ("type", .vstr "uart"),
          ("uart", .vdict [("port", .vstr "/dev/ttyUSB0"), ("speed", .vint 115200)])]),
        ("rxLevel", .vint 50), ("txLevel", .vint 50),
        ("rxDCOffset", .vint 0), ("txDCOffset", .vint 0)])]),
    ("protocols", .vdict [
      ("dmr", .vdict [
        ("enable", .vbool true),
        ("control", .vdict [("enable", .vbool true), ("dedicated", .vbool false)])]),
      ("p25", .vdict [
        ("enable", .vbool true),
        ("control", .vdict [("enable", .vbool true), ("dedicated", .vbool false)])]),
      ("nxdn", .vdict [
        ("enable", .vbool false),
        ("control", .vdict [("enable", .vbool false), ("dedicated", .vbool false)])])])]

/-- Modelled from the spec: `load_base_config` prefers the repository file
`configs/config.example.yml`, which is not among the sources here; the spec
treats the document store's schema as external and documents the fallback
("Falls back to minimal config if not found").  This model takes that
documented fallback path, whose contents (`get_minimal_fallback_config`) are
in the sources. -/
def load_base_config : CVal := get_minimal_fallback_config

/-- `apply_template_customizations`: per-template direct nested assignments
(`config['system']['duplex'] = True` and so on).  Every assigned key exists in
the base document, where direct assignment and `cset` agree. -/
def apply_template_customizations (c0 : CVal) (template_type : String) :
    Except String CVal :=
  if template_type = "control-channel-p25" then do
    let c ← cset c0 "system.duplex" (.vbool true)
    let c ← cset c "system.identity" (.vstr "CC-P25")
    let c ← cset c "system.config.authoritative" (.vbool true)
    let c ← cset c "system.config.supervisor" (.vbool true)
    let c ← cset c "protocols.dmr.enable" (.vbool false)
    let c ← cset c "protocols.p25.enable" (.vbool true)
    let c ← cset c "protocols.nxdn.enable" (.vbool false)
    let c ← cset c "protocols.p25.control.enable" (.vbool true)
    cset c "protocols.p25.control.dedicated" (.vbool true)
  else if template_type = "control-channel-dmr" then do
    let c ← cset c0 "system.duplex" (.vbool true)
    let c ← cset c "system.identity" (.vstr "CC-DMR")
    let c ← cset c "system.config.authoritative" (.vbool true)
    let c ← cset c "system.config.supervisor" (.vbool true)
    let c ← cset c "protocols.dmr.enable" (.vbool true)
    let c ← cset c "protocols.p25.enable" (.vbool false)
    let c ← cset c "protocols.nxdn.enable" (.vbool false)
    let c ← cset c "protocols.dmr.control.enable" (.vbool true)
    cset c "protocols.dmr.control.dedicated" (.vbool true)
  else if template_type = "voice-channel" then do
    let c ← cset c0 "system.duplex" (.vbool true)
    let c ← cset c "system.identity" (.vstr "VC")
    let c ← cset c "system.config.authoritative" (.vbool false)
    let c ← cset c "system.config.supervisor" (.vbool false)
    let c ← cset c "protocols.dmr.enable" (.vbool true)
    let c ← cset c "protocols.p25.enable" (.vbool true)
    let c ← cset c "protocols.nxdn.enable" (.vbool false)
    let c ← cset c "protocols.dmr.control.enable" (.vbool false)
    let c ← cset c "protocols.dmr.control.dedicated" (.vbool false)
    let c ← cset c "protocols.p25.control.enable" (.vbool false)
    cset c "protocols.p25.control.dedicated" (.vbool false)
  else if template_type = "enhanced" then do
    let c ← cset c0 "system.duplex" (.vbool true)
    let c ← cset c "system.identity" (.vstr "CONV")
    let c ← cset c "protocols.dmr.enable" (.vbool true)
    let c ← cset c "protocols.p25.enable" (.vbool true)
    let c ← cset c "protocols.nxdn.enable" (.vbool false)
    let c ← cset c "protocols.dmr.control.enable" (.vbool true)
    let c ← cset c "protocols.dmr.control.dedicated" (.vbool false)
    let c ← cset c "protocols.p25.control.enable" (.vbool true)
    cset c "protocols.p25.control.dedicated" (.vbool false)
  else if template_type = "conventional" then do
    let c ← cset c0 "system.duplex" (.vbool true)
    let c ← cset c "system.identity" (.vstr "RPT")
    let c ← cset c "protocols.dmr.enable" (.vbool false)
    let c ← cset c "protocols.p25.enable" (.vbool true)
    let c ← cset c "protocols.nxdn.enable" (.vbool false)
    let c ← cset c "protocols.dmr.control.enable" (.vbool false)
    let c ← cset c "protocols.dmr.control.dedicated" (.vbool false)
    let c ← cset c "protocols.p25.control.enable" (.vbool true)
    cset c "protocols.p25.control.dedicated" (.vbool false)
  else .ok c0

/-- The names in `TEMPLATES`. -/
def TEMPLATES : List String :=
  ["conventional", "enhanced", "control-channel-p25", "control-channel-dmr",
   "voice-channel"]

/-- `get_template`: unknown names are rejected, then the base config is
customized for the template. -/
def get_template (template_name : String) : Except String CVal :=
  if ¬ TEMPLATES.contains template_name then .error "ValueError"
  else apply_template_customizations load_base_config template_name

/-! ## `trunking_manager.py`: the trunked-system builder -/

/-- Python `str.lower()` on one ASCII character. -/
def pyLowerChar (c : Char) : Char :=
  if 65 ≤ c.toNat ∧ c.toNat ≤ 90 then Char.ofNat (c.toNat + 32) else c

/-- Python `str.lower()` (the protocol strings compared here are ASCII). -/
def pyLower (s : String) : String := String.mk (s.data.map pyLowerChar)

/-- One element of the `vc_channels` argument of `create_system` (a dict with
`channel_id`, `channel_no` and optional DFSI settings). -/
structure VcChan where
  channel_id : Int
  channel_no : Int
  dfsi_rtrt : Option Int
  dfsi_jitter : Option Int
  dfsi_call_timeout : Option Int
  dfsi_full_duplex : Option Bool
  deriving Repr

/-- The parameters of `TrunkingSystem.__init__` and
`TrunkingSystem.create_system` (defaultable-to-`None` parameters are
`Option`s; `vc_count` feeds only `range`, hence `Nat`). -/
structure CreateParams where
  system_name : String
  protocol : String
  vc_count : Nat
  fne_address : String
  fne_port : Int
  fne_password : String
  base_peer_id : Int
  base_rpc_port : Int
  rpc_password : String
  base_rest_port : Int
  rest_password : Option String
  update_lookups : Bool
  save_lookups : Bool
  allow_activity_transfer : Bool
  allow_diagnostic_transfer : Bool
  allow_status_transfer : Bool
  radio_id_file : Option String
  radio_id_time : Int
  radio_id_acl : Bool
  talkgroup_id_file : Option String
  talkgroup_id_time : Int
  talkgroup_id_acl : Bool
  system_identity : String
  nac : Option Int
  color_code : Option Int
  site_id : Option Int
  modem_type : String
  cc_dfsi_rtrt : Option Int
  cc_dfsi_jitter : Option Int
  cc_dfsi_call_timeout : Option Int
  cc_dfsi_full_duplex : Option Bool
  cc_channel_id : Int
  cc_channel_no : Int
  dmr_net_id : Option Int
  net_id : Option Int
  sys_id : Option Int
  rfss_id : Option Int
  ran : Option Int
  vc_channels : Option (List VcChan)

/-- The Python default arguments of `TrunkingSystem` / `create_system`. -/
def defaultParams : CreateParams :=
  ⟨"trunked", "p25", 2, "127.0.0.1", 62031, "PASSWORD", 100000, 9890,
   "PASSWORD", 8080, none, true, true, true, false, true, none, 0, false,
   none, 0, false, "SKYNET", some 0x293, some 1, some 1, "uart", none, none,
   none, none, 0, 0, none, none, none, none, none, none⟩

/-- The default `vc_channels` built when the caller passes none: voice channel
`i` (1-based) reuses the control channel id with `channel_no = cc_channel_no + i`. -/
def defaultVcChans (cc_id cc_no : Int) (i : Nat) : Nat → List VcChan
  | 0 => []
  | k + 1 => ⟨cc_id, cc_no + i, none, none, none, none⟩ :: defaultVcChans cc_id cc_no (i + 1) k

/-- Optionally set a key (the `if x is not None:` guard pattern). -/
def csetOptInt (c : CVal) (key : String) : Option Int → Except String CVal
  | some v => cset c key (.vint v)
  | none => pure c

/-- Optionally set a boolean key. -/
def csetOptBool (c : CVal) (key : String) : Option Bool → Except String CVal
  | some v => cset c key (.vbool v)
  | none => pure c

/-- The network / lookup / ACL settings stamped identically onto the control
and every voice instance (the common block of `create_system`). -/
def stampCommon (p : CreateParams) (c0 : CVal) (peer_id rpc_port rest_port : Int) :
    Except String CVal := do
  let c ← cset c0 "network.id" (.vint peer_id)
  let c ← cset c "network.address" (.vstr p.fne_address)
  let c ← cset c "network.port" (.vint p.fne_port)
  let c ← cset c "network.password" (.vstr p.fne_password)
  let c ← cset c "network.rpcPort" (.vint rpc_port)
  let c ← cset c "network.rpcPassword" (.vstr p.rpc_password)
  let c ←
    match p.rest_password with
    | some pw => do
      let c ← cset c "network.restEnable" (.vbool true)
      let c ← cset c "network.restPort" (.vint rest_port)
      cset c "network.restPassword" (.vstr pw)
    | none => cset c "network.restEnable" (.vbool false)
  let c ← cset c "network.updateLookups" (.vbool p.update_lookups)
  let c ← cset c "network.saveLookups" (.vbool p.save_lookups)
  let c ← cset c "network.allowActivityTransfer" (.vbool p.allow_activity_transfer)
  let c ← cset c "network.allowDiagnosticTransfer" (.vbool p.allow_diagnostic_transfer)
  let c ← cset c "network.allowStatusTransfer" (.vbool p.allow_status_transfer)
  let c ←
    if p.update_lookups then do
      let c ← cset c "system.radio_id.time" (.vint 0)
      cset c "system.talkgroup_id.time" (.vint 0)
    else do
      let c ← if p.radio_id_time > 0 then cset c "system.radio_id.time" (.vint p.radio_id_time)
        else pure c
      if p.talkgroup_id_time > 0 then cset c "system.talkgroup_id.time" (.vint p.talkgroup_id_time)
      else pure c
  let c ←
    match p.radio_id_file with
    | some f => if f = "" then pure c else cset c "system.radio_id.file" (.vstr f)
    | none => pure c
  let c ← cset c "system.radio_id.acl" (.vbool p.radio_id_acl)
  let c ←
    match p.talkgroup_id_file with
    | some f => if f = "" then pure c else cset c "system.talkgroup_id.file" (.vstr f)
    | none => pure c
  cset c "system.talkgroup_id.acl" (.vbool p.talkgroup_id_acl)

/-- The shared protocol identifiers stamped onto an instance (`siteId`, `nac`,
`colorCode`, `dmrNetId`, `netId`, `sysId`, `rfssId`, `ran`, each only when the
corresponding argument is not `None`). -/
def stampSharedIds (p : CreateParams) (c0 : CVal) : Except String CVal := do
  let c ← csetOptInt c0 "system.config.siteId" p.site_id
  let c ← csetOptInt c "system.config.nac" p.nac
  let c ← csetOptInt c "system.config.colorCode" p.color_code
  let c ← csetOptInt c "system.config.dmrNetId" p.dmr_net_id
  let c ← csetOptInt c "system.config.netId" p.net_id
  let c ← csetOptInt c "system.config.sysId" p.sys_id
  let c ← csetOptInt c "system.config.rfssId" p.rfss_id
  csetOptInt c "system.config.ran" p.ran

/-- One entry of the voice-channel roster stored on the control instance
(`system.config.voiceChNo`); `i` is the 0-based loop index, so the RPC port is
`base_rpc_port + i + 1`. -/
def rosterEntry (p : CreateParams) (i : Nat) (info : VcChan) : CVal :=
  .vdict [("channelId", .vint info.channel_id), ("channelNo", .vint info.channel_no),
          ("rpcAddress", .vstr "127.0.0.1"), ("rpcPort", .vint (p.base_rpc_port + i + 1)),
          ("rpcPassword", .vstr p.fne_password)]

/-- The roster loop `for i in range(vc_count)`: `vc_channels[i]` raises
`IndexError` when the caller-supplied list is too short. -/
def buildRoster (p : CreateParams) (chans : List VcChan) (i : Nat) :
    Nat → Except String (List CVal)
  | 0 => .ok []
  | k + 1 =>
    match chans.get? i with
    | none => .error "IndexError"
    | some info => do
      let rest ← buildRoster p chans (i + 1) k
      return rosterEntry p i info :: rest

/-- Construction of the control-channel instance (`create_system` stage 2). -/
def buildCC (p : CreateParams) (chans : List VcChan) : Except String CVal := do
  let tmpl ← get_template
    (if pyLower p.protocol = "p25" then "control-channel-p25" else "control-channel-dmr")
  let c ← cset tmpl "system.identity" (.vstr (p.system_identity ++ "-CC"))
  let c ← stampCommon p c p.base_peer_id p.base_rpc_port p.base_rest_port
  let c ← cset c "system.modem.protocol.type" (.vstr p.modem_type)
  let c ← csetOptInt c "system.modem.dfsiRtrt" p.cc_dfsi_rtrt
  let c ← csetOptInt c "system.modem.dfsiJitter" p.cc_dfsi_jitter
  let c ← csetOptInt c "system.modem.dfsiCallTimeout" p.cc_dfsi_call_timeout
  let c ← csetOptBool c "system.modem.dfsiFullDuplex" p.cc_dfsi_full_duplex
  let c ← cset c "system.config.channelId" (.vint p.cc_channel_id)
  let c ← cset c "system.config.channelNo" (.vint p.cc_channel_no)
  let c ← stampSharedIds p c
  let roster ← buildRoster p chans 0 p.vc_count
  cset c "system.config.voiceChNo" (.vlist roster)

/-- Construction of one voice-channel instance (`create_system` stage 3,
`vc_index` is the 1-based ordinal). -/
def buildVC (p : CreateParams) (info : VcChan) (vc_index : Nat) : Except String CVal := do
  let tmpl ← get_template "voice-channel"
  let c ← cset tmpl "system.identity"
    (.vstr (p.system_identity ++ "-VC" ++ fmt02 vc_index))
  let c ← stampCommon p c (p.base_peer_id + vc_index) (p.base_rpc_port + vc_index)
    (p.base_rest_port + vc_index)
  let c ← cset c "system.config.channelId" (.vint info.channel_id)
  let c ← cset c "system.config.channelNo" (.vint info.channel_no)
  let c ← cset c "system.modem.protocol.type" (.vstr p.modem_type)
  let c ← csetOptInt c "system.modem.dfsiRtrt" info.dfsi_rtrt
  let c ← csetOptInt c "system.modem.dfsiJitter" info.dfsi_jitter
  let c ← csetOptInt c "system.modem.dfsiCallTimeout" info.dfsi_call_timeout
  let c ← csetOptBool c "system.modem.dfsiFullDuplex" info.dfsi_full_duplex
  let c ← stampSharedIds p c
  let c ←
    if pyLower p.protocol = "p25" then do
      let c ← cset c "protocols.p25.enable" (.vbool true)
      cset c "protocols.dmr.enable" (.vbool false)
    else do
      let c ← cset c "protocols.dmr.enable" (.vbool true)
      cset c "protocols.p25.enable" (.vbool false)
  let c ← cset c "system.config.controlCh.rpcAddress" (.vstr "127.0.0.1")
  let c ← cset c "system.config.controlCh.rpcPort" (.vint p.base_rpc_port)
  let c ← cset c "system.config.controlCh.rpcPassword" (.vstr p.fne_password)
  cset c "system.config.controlCh.notifyEnable" (.vbool true)

/-- The saved-file store of one base directory: file name to document.  YAML
serialization round-trips the document values unchanged, so a saved file holds
the document itself; `DVMConfig.save` renames any existing file aside and
writes the new content, i.e. the store maps each name to its latest save. -/
abbrev Store := List (String × CVal)

/-- Latest-save-wins store update. -/
def storeSave (s : Store) (name : String) (doc : CVal) : Store :=
  match s with
  | [] => [(name, doc)]
  | (n, d) :: rest => if n = name then (name, doc) :: rest else (n, d) :: storeSave rest name doc

/-- Store lookup. -/
def storeFind (s : Store) (name : String) : Option CVal :=
  match s with
  | [] => none
  | (n, d) :: rest => if n = name then some d else storeFind rest name

/-- The control-channel file name `f'{system_name}-cc.yml'`. -/
def ccFileName (system_name : String) : String := system_name ++ "-cc.yml"

/-- The voice-channel file name `f'{system_name}-vc{i:02d}.yml'`. -/
def vcFileName (system_name : String) (i : Nat) : String :=
  system_name ++ "-vc" ++ fmt02 i ++ ".yml"

/-- The voice-channel construction loop of `create_system`: builds and saves
instance `idx`, `idx+1`, ... (1-based), `cnt` many. -/
def buildVCList (p : CreateParams) (chans : List VcChan) (idx : Nat) :
    Nat → Store → Except String (List CVal × Store)
  | 0, store => .ok ([], store)
  | k + 1, store =>
    match chans.get? (idx - 1) with
    | none => .error "IndexError"
    | some info => do
      let vc ← buildVC p info idx
      let store := storeSave store (vcFileName p.system_name idx) vc
      let (rest, store2) ← buildVCList p chans (idx + 1) k store
      return (vc :: rest, store2)

/-- `TrunkingSystem.create_system`: default the voice-channel list, build and
save the control instance, then build and save the voice instances in order.
Returns the in-memory `cc_config`, `vc_configs` and the resulting store. -/
def create_system (p : CreateParams) (store0 : Store) :
    Except String (CVal × List CVal × Store) := do
  let chans := match p.vc_channels with
    | some l => l
    | none => defaultVcChans p.cc_channel_id p.cc_channel_no 1 p.vc_count
  let cc ← buildCC p chans
  let store := storeSave store0 (ccFileName p.system_name) cc
  let (vcs, store2) ← buildVCList p chans 1 p.vc_count store
  return (cc, vcs, store2)

/-- The voice-channel discovery scan of `load_system`: load `vc01`, `vc02`, ...
until a missing file terminates the scan.  The scan visits consecutive
ordinals and the store is finite, so `store.length + 1` steps of fuel always
reach the terminating miss; the fuel is a modelling device for the Python
`while True` loop, not a behavior change. -/
def loadVCs (store : Store) (name : String) (i : Nat) : Nat → List CVal
  | 0 => []
  | fuel + 1 =>
    match storeFind store (vcFileName name i) with
    | none => []
    | some c => c :: loadVCs store name (i + 1) fuel

/-- `TrunkingSystem.load_system`: a missing control-channel file is fatal; the
voice channels are discovered by scanning from ordinal 1. -/
def load_system (store : Store) (name : String) : Except String (CVal × List CVal) :=
  match storeFind store (ccFileName name) with
  | none => .error "FileNotFoundError"
  | some cc => .ok (cc, loadVCs store name 1 (store.length + 1))

/-- Python `f"{x}"` for the values embedded in consistency messages (floats
never reach these messages in this repository, so their repr is left
abstract). -/
def pyStr : CVal → String
  | .vstr s => s
  | .vint n => intStr n
  | .vbool b => if b then "True" else "False"
  | .vrat _ => "<float>"
  | .vdict _ => "<dict>"
  | .vlist _ => "<list>"

/-- Python `f"{x}"` where `x` may be the `None` of a missing `get`. -/
def pyStrOpt : Option CVal → String
  | none => "None"
  | some v => pyStr v

/-- Python `x is None` for a `get` result. -/
def pyIsNone : Option CVal → Bool
  | none => true
  | some _ => false

/-- One guarded cross-instance field comparison of `_check_consistency`:
emit `"VC{i:02d}: {field} mismatch (expected {ccValue})"` when the reference
value is not `None` and the voice instance's value differs. -/
def fieldMismatch (tag field : String) (ccVal vcVal : Option CVal) : List String :=
  if ¬ pyIsNone ccVal ∧ ¬ optCvalEq vcVal ccVal then
    [tag ++ field ++ " mismatch (expected " ++ pyStrOpt ccVal ++ ")"]
  else []

/-- An unguarded cross-instance field comparison (the FNE address and port
checks have no `is not None` guard). -/
def fieldMismatchUnguarded (tag field : String) (ccVal vcVal : Option CVal) : List String :=
  if ¬ optCvalEq vcVal ccVal then
    [tag ++ field ++ " mismatch (expected " ++ pyStrOpt ccVal ++ ")"]
  else []

/-- The per-voice-instance comparisons of `_check_consistency`, in source
order; `i` is the 1-based enumeration index. -/
def vcConsistency (cc : CVal) (i : Nat) (vc : CVal) : List String :=
  let tag := "VC" ++ fmt02 i ++ ": "
  fieldMismatch tag "NAC" (cget cc "system.config.nac") (cget vc "system.config.nac") ++
  fieldMismatch tag "Color code" (cget cc "system.config.colorCode")
    (cget vc "system.config.colorCode") ++
  fieldMismatch tag "Site ID" (cget cc "system.config.siteId")
    (cget vc "system.config.siteId") ++
  fieldMismatch tag "Network ID" (cget cc "system.config.netId")
    (cget vc "system.config.netId") ++
  fieldMismatch tag "DMR Network ID" (cget cc "system.config.dmrNetId")
    (cget vc "system.config.dmrNetId") ++
  fieldMismatch tag "System ID" (cget cc "system.config.sysId")
    (cget vc "system.config.sysId") ++
  fieldMismatch tag "RFSS ID" (cget cc "system.config.rfssId")
    (cget vc "system.config.rfssId") ++
  fieldMismatch tag "RAN" (cget cc "system.config.ran") (cget vc "system.config.ran") ++
  fieldMismatchUnguarded tag "FNE address" (cget cc "network.address")
    (cget vc "network.address") ++
  fieldMismatchUnguarded tag "FNE port" (cget cc "network.port") (cget vc "network.port")

/-- The enumeration loop of `_check_consistency`. -/
def consistencyAux (cc : CVal) (i : Nat) : List CVal → List String
  | [] => []
  | vc :: rest => vcConsistency cc i vc ++ consistencyAux cc (i + 1) rest

/-- `TrunkingSystem._check_consistency`: empty when there is no control config
or no voice configs, else the concatenated per-voice comparisons. -/
def check_consistency (cc : Option CVal) (vcs : List CVal) : List String :=
  match cc, vcs with
  | some c, _ :: _ => consistencyAux c 1 vcs
  | _, _ => []

/-- The per-voice-channel validation loop of `validate_system`: a nonempty
error list is recorded under `f'voice_channel_{i}'`. -/
def collectVcErrs (i : Nat) : List CVal → Except String (List (String × List String))
  | [] => .ok []
  | vc :: rest => do
    let errs ← validate vc
    let others ← collectVcErrs (i + 1) rest
    return (if errs ≠ [] then [("voice_channel_" ++ String.mk (natChars i), errs)] else [])
      ++ others

/-- `TrunkingSystem.validate_system`: per-instance validation of the control
and voice configs plus the cross-instance consistency check, as a keyed list
of nonempty error lists (the Python dict in insertion order). -/
def validate_system (cc : CVal) (vcs : List CVal) :
    Except String (List (String × List String)) := do
  let ccErrs ← validate cc
  let e1 := if ccErrs ≠ [] then [("control_channel", ccErrs)] else []
  let e2 ← collectVcErrs 1 vcs
  let cons := check_consistency (some cc) vcs
  return e1 ++ e2 ++ (if cons ≠ [] then [("consistency", cons)] else [])

/-! ## Arithmetic facts about the truncation model -/

/-- Truncation of an integer is that integer. -/
theorem pyTrunc_intCast (n : Int) : pyTrunc (n : ℚ) = n := by
  unfold pyTrunc
  split
  · exact Int.floor_intCast n
  · rw [← Int.cast_neg, Int.floor_intCast]; ring

/-- On nonnegative rationals truncation is the floor. -/
theorem pyTrunc_eq_floor_of_nonneg {q : ℚ} (h : 0 ≤ q) : pyTrunc q = ⌊q⌋ := if_pos h

/-- Characterization of truncation on nonnegative rationals. -/
theorem pyTrunc_eq_iff_of_nonneg {q : ℚ} {n : Int} (h : 0 ≤ q) :
    pyTrunc q = n ↔ (n : ℚ) ≤ q ∧ q < n + 1 := by
  rw [pyTrunc_eq_floor_of_nonneg h, Int.floor_eq_iff]

/-- Truncating the rational quotient of a nonnegative integer by a positive
integer is Euclidean (floor) integer division. -/
theorem pyTrunc_div_eq_ediv (a b : Int) (ha : 0 ≤ a) (hb : 0 < b) :
    pyTrunc ((a : ℚ) / (b : ℚ)) = a / b := by
  have hbq : (0 : ℚ) < (b : ℚ) := by exact_mod_cast hb
  have h0 : (0 : ℚ) ≤ (a : ℚ) / (b : ℚ) :=
    div_nonneg (by exact_mod_cast ha) hbq.le
  rw [pyTrunc_eq_floor_of_nonneg h0]
  have hb2 : ((b.toNat : ℕ) : ℚ) = (b : ℚ) := by
    exact_mod_cast Int.toNat_of_nonneg hb.le
  calc ⌊(a : ℚ) / (b : ℚ)⌋ = ⌊(a : ℚ) / ((b.toNat : ℕ) : ℚ)⌋ := by rw [hb2]
    _ = a / ((b.toNat : ℕ) : ℤ) := Rat.floor_intCast_div_natCast a b.toNat
    _ = a / b := by rw [Int.toNat_of_nonneg hb.le]

/-! ## Claim C8: DMR network id validation against site-model bounds -/

/-- Claim C8: `validate_dmr_network_id` checks the network id against the
inclusive bounds of the given site model variant, whose minimum is 1 in every
variant; net id 128 is rejected under SMALL (maximum 127) and accepted under
TINY (maximum 511). -/
theorem C8_dmr_net_id_site_model_bounds :
    (∀ (n : Int) (m : DMRSiteModel),
      (validate_dmr_network_id n m).1 = true ↔
        (dmrNetIdLimits m).1 ≤ n ∧ n ≤ (dmrNetIdLimits m).2) ∧
    (∀ m : DMRSiteModel, (dmrNetIdLimits m).1 = 1) ∧
    ((validate_dmr_network_id 128 .SMALL).1 = false ∧ (dmrNetIdLimits .SMALL).2 = 127) ∧
    ((validate_dmr_network_id 128 .TINY).1 = true ∧ (dmrNetIdLimits .TINY).2 = 511) := by
  refine ⟨fun n m => ?_, fun m => ?_, ⟨rfl, rfl⟩, ⟨rfl, rfl⟩⟩
  · cases m <;>
      (dsimp only [validate_dmr_network_id, dmrNetIdLimits]
       split <;> rename_i h <;> simp <;> omega)
  · cases m <;> rfl

/-! ## Claim C2: channel number computation -/

/-- The statement of claim C2 at one entry and one TX frequency: the
computation fails precisely outside the window
`[base_freq, base_freq + 30000000]`, and inside the window it returns the
quotient of the offset from base by `spacing * 1000`, truncated toward zero. -/
def C2ClaimAt (e : IdenEntry) (tx : Int) : Prop :=
  ((∃ r, e.calculate_channel_number tx = .ok r) ↔
    ¬ (tx < e.base_freq ∨ tx > e.base_freq + 30000000)) ∧
  (¬ (tx < e.base_freq ∨ tx > e.base_freq + 30000000) →
    e.calculate_channel_number tx =
      .ok (pyTrunc (((tx - e.base_freq : Int) : ℚ) / (e.spacing * 1000))))

/-- Claim C2 as stated is false: on the entry with spacing `6.0001` kHz the
code divides by the truncated divisor `int(6.0001 * 1000) = 6000` and returns
channel `5000` at 30 MHz above base, while the claim's divisor `6000.1` gives
`4999`; and on the entry with spacing `0.0005` kHz the truncated divisor is
zero and the in-window computation fails (`ZeroDivisionError`). -/
theorem C2_counterexample :
    ¬ C2ClaimAt ⟨0, 0, 6.0001, 0, 12.5⟩ 30000000 ∧
      ¬ C2ClaimAt ⟨0, 0, 0.0005, 0, 12.5⟩ 0 := by
  have hsp : pyTrunc ((6.0001 : ℚ) * 1000) = 6000 := by
    rw [pyTrunc_eq_iff_of_nonneg (by norm_num)]
    constructor <;> norm_num
  have hzero : pyTrunc ((0.0005 : ℚ) * 1000) = 0 := by
    rw [pyTrunc_eq_iff_of_nonneg (by norm_num)]
    constructor <;> norm_num
  constructor
  · intro h
    have hin : ¬ ((30000000 : Int) <
        (⟨0, 0, 6.0001, 0, 12.5⟩ : IdenEntry).base_freq ∨ (30000000 : Int) >
        (⟨0, 0, 6.0001, 0, 12.5⟩ : IdenEntry).base_freq + 30000000) := by
      dsimp only
      omega
    have hcode : IdenEntry.calculate_channel_number ⟨0, 0, 6.0001, 0, 12.5⟩ 30000000 =
        .ok 5000 := by
      dsimp only [IdenEntry.calculate_channel_number, MAX_FREQ_GAP]
      rw [if_neg (by decide), if_neg (by decide), hsp, if_neg (by decide)]
      have hval : pyTrunc (((30000000 - 0 : Int) : ℚ) / ((6000 : Int) : ℚ)) = 5000 := by
        rw [pyTrunc_eq_iff_of_nonneg (by norm_num)]
        constructor <;> norm_num
      rw [hval]
    have hclaim := h.2 hin
    rw [hcode] at hclaim
    have hval2 : pyTrunc (((30000000 - (0 : Int) : Int) : ℚ) /
        ((⟨0, 0, 6.0001, 0, 12.5⟩ : IdenEntry).spacing * 1000)) = 4999 := by
      dsimp only
      rw [pyTrunc_eq_iff_of_nonneg (by norm_num)]
      constructor <;> norm_num
    rw [hval2] at hclaim
    simp at hclaim
  · intro h
    have hin : ¬ ((0 : Int) < (⟨0, 0, 0.0005, 0, 12.5⟩ : IdenEntry).base_freq ∨
        (0 : Int) > (⟨0, 0, 0.0005, 0, 12.5⟩ : IdenEntry).base_freq + 30000000) := by
      dsimp only
      omega
    have hcode : IdenEntry.calculate_channel_number ⟨0, 0, 0.0005, 0, 12.5⟩ 0 =
        .error .divisionByZero := by
      dsimp only [IdenEntry.calculate_channel_number, MAX_FREQ_GAP]
      rw [if_neg (by decide), if_neg (by decide), hzero, if_pos rfl]
    have hok := (h.1.mpr hin)
    rw [hcode] at hok
    rcases hok with ⟨r, hr⟩
    exact absurd hr (by simp)

/-- Claim C2 corrected: with `space_hz := int(spacing_khz * 1000)`, the
computation fails precisely when the TX frequency is below base, more than
30 MHz above base, or `space_hz = 0` (division by zero); inside the window
with a nonzero `space_hz` it returns the quotient by `space_hz` truncated
toward zero, which for a positive `space_hz` is Euclidean (floor) integer
division of the offset from base. -/
theorem C2_amended (e : IdenEntry) (tx : Int) :
    ((∃ r, e.calculate_channel_number tx = .ok r) ↔
      (e.base_freq ≤ tx ∧ tx ≤ e.base_freq + 30000000 ∧ pyTrunc (e.spacing * 1000) ≠ 0)) ∧
    (e.base_freq ≤ tx → tx ≤ e.base_freq + 30000000 → pyTrunc (e.spacing * 1000) ≠ 0 →
      e.calculate_channel_number tx =
        .ok (pyTrunc (((tx - e.base_freq : Int) : ℚ) / ((pyTrunc (e.spacing * 1000) : Int) : ℚ)))) ∧
    (e.base_freq ≤ tx → tx ≤ e.base_freq + 30000000 → 0 < pyTrunc (e.spacing * 1000) →
      e.calculate_channel_number tx = .ok ((tx - e.base_freq) / pyTrunc (e.spacing * 1000))) := by
  refine ⟨⟨?_, ?_⟩, ?_, ?_⟩
  · rintro ⟨r, hr⟩
    unfold IdenEntry.calculate_channel_number at hr
    by_cases h1 : tx < e.base_freq
    · rw [if_pos h1] at hr; exact absurd hr (by simp)
    by_cases h2 : tx > e.base_freq + MAX_FREQ_GAP
    · rw [if_neg h1, if_pos h2] at hr; exact absurd hr (by simp)
    by_cases h3 : pyTrunc (e.spacing * 1000) = 0
    · rw [if_neg h1, if_neg h2] at hr
      simp only [h3] at hr
      simp at hr
    · exact ⟨by omega, by unfold MAX_FREQ_GAP at h2; omega, h3⟩
  · rintro ⟨h1, h2, h3⟩
    unfold IdenEntry.calculate_channel_number
    rw [if_neg (by omega), if_neg (by unfold MAX_FREQ_GAP; omega)]
    rw [if_neg h3]
    exact ⟨_, rfl⟩
  · intro h1 h2 h3
    unfold IdenEntry.calculate_channel_number
    rw [if_neg (by omega), if_neg (by unfold MAX_FREQ_GAP; omega), if_neg h3]
  · intro h1 h2 h3
    unfold IdenEntry.calculate_channel_number
    rw [if_neg (by omega), if_neg (by unfold MAX_FREQ_GAP; omega), if_neg (by omega)]
    rw [pyTrunc_div_eq_ediv _ _ (by omega) h3]

/-- Witness for the corrected claim C2, on the `vhf` band entry at
146.0125 MHz: the hypotheses hold and the computed channel is
`12500 / 6250 = 2` (spec scenario A). -/
theorem C2_amended_witness :
    (146000000 : Int) ≤ 146012500 ∧ (146012500 : Int) ≤ 146000000 + 30000000 ∧
      0 < pyTrunc ((6.25 : ℚ) * 1000) ∧
      IdenEntry.calculate_channel_number ⟨3, 146000000, 6.25, 0.6, 12.5⟩ 146012500 =
        .ok ((146012500 - 146000000) / pyTrunc ((6.25 : ℚ) * 1000)) := by
  have hsp : pyTrunc ((6.25 : ℚ) * 1000) = 6250 := by
    rw [pyTrunc_eq_iff_of_nonneg (by norm_num)]
    constructor <;> norm_num
  have hpos : 0 < pyTrunc ((6.25 : ℚ) * 1000) := by omega
  exact ⟨by omega, by omega, hpos,
    (C2_amended ⟨3, 146000000, 6.25, 0.6, 12.5⟩ 146012500).2.2 (by dsimp only; omega)
      (by dsimp only; omega) (by dsimp only; omega)⟩

/-! ## Claim C7: receive frequency computation -/

/-- The statement of claim C7 at one entry and TX frequency: the RX frequency
is `tx + round(input_offset * 1000000)`, negative offsets are accepted, and
the computation fails exactly when that value is negative. -/
def C7ClaimAt (e : IdenEntry) (tx : Int) : Prop :=
  e.calculate_rx_frequency tx =
    (if tx + round (e.input_offset * 1000000) < 0 then .error CalcErr.negativeRxFrequency
     else .ok (tx + round (e.input_offset * 1000000)))

/-- Claim C7 as stated is false: the code truncates the scaled offset toward
zero (`int(...)`) rather than rounding it.  With offset `0.0000019` MHz the
scaled offset is `1.9` Hz; the code returns `tx + 1` while the claim's
rounding gives `tx + 2`. -/
theorem C7_counterexample : ¬ C7ClaimAt ⟨0, 0, 6.25, 0.0000019, 12.5⟩ 0 := by
  intro h
  unfold C7ClaimAt at h
  have htr : pyTrunc ((0.0000019 : ℚ) * 1000000) = 1 := by
    rw [pyTrunc_eq_iff_of_nonneg (by norm_num)]
    constructor <;> norm_num
  have hrd : round ((0.0000019 : ℚ) * 1000000) = 2 := by
    rw [round_eq]
    have h24 : ((0.0000019 : ℚ) * 1000000 + 1 / 2) = 2.4 := by norm_num
    rw [h24, Int.floor_eq_iff]
    norm_num
  dsimp only [IdenEntry.calculate_rx_frequency] at h
  rw [htr, hrd] at h
  rw [if_neg (by omega), if_neg (by omega)] at h
  simp at h

/-- Claim C7 corrected: the RX frequency is
`tx + int(input_offset * 1000000)` with `int` truncating toward zero; a
negative offset (RX below TX, possibly below base) is accepted, and the
computation fails exactly when the result is negative. -/
theorem C7_amended (e : IdenEntry) (tx : Int) :
    (e.calculate_rx_frequency tx =
      (if tx + pyTrunc (e.input_offset * 1000000) < 0 then .error CalcErr.negativeRxFrequency
       else .ok (tx + pyTrunc (e.input_offset * 1000000)))) ∧
    (pyTrunc (e.input_offset * 1000000) < 0 →
      ∀ r, e.calculate_rx_frequency tx = .ok r → r < tx) := by
  constructor
  · rfl
  · intro hneg r hr
    dsimp only [IdenEntry.calculate_rx_frequency] at hr
    split at hr
    · exact absurd hr (by simp)
    · simp only [Except.ok.injEq] at hr
      omega

/-- Witness for the corrected claim C7 on the 800 MHz entry (offset −45 MHz)
at 851.00625 MHz: the negative offset is accepted and RX lands below TX. -/
theorem C7_amended_witness :
    pyTrunc ((-45.0 : ℚ) * 1000000) < 0 ∧
      (∀ r, IdenEntry.calculate_rx_frequency ⟨0, 851006250, 6.25, -45.0, 12.5⟩ 851006250 =
        .ok r → r < 851006250) := by
  have htr : pyTrunc ((-45.0 : ℚ) * 1000000) = -45000000 := by
    have hcast : ((-45.0 : ℚ) * 1000000) = ((-45000000 : Int) : ℚ) := by norm_num
    rw [hcast, pyTrunc_intCast]
  exact ⟨by omega,
    (C7_amended ⟨0, 851006250, 6.25, -45.0, 12.5⟩ 851006250).2 (by dsimp only; omega)⟩

/-! ## Decimal rendering and parsing facts -/

/-- Digit characters are digits. -/
theorem decChar_isDigit {d : Nat} (h : d < 10) : (decChar d).isDigit = true := by
  interval_cases d <;> decide

/-- Value of a digit character. -/
theorem charVal_decChar {d : Nat} (h : d < 10) : charVal (decChar d) = d := by
  interval_cases d <;> decide

/-- Digit characters are not Python whitespace. -/
theorem decChar_not_ws {d : Nat} (h : d < 10) : pyWs (decChar d) = false := by
  interval_cases d <;> decide

/-- Folding one more digit onto the right multiplies the value by ten. -/
theorem charsVal_append_singleton (l : List Char) (c : Char) :
    charsVal (l ++ [c]) = 10 * charsVal l + charVal c := by
  unfold charsVal
  rw [List.foldl_append]
  rfl

/-- The digit rendering does not depend on the fuel once the fuel covers the
number. -/
theorem natCharsF_irrel : ∀ f1 f2 n : Nat, n ≤ f1 → n ≤ f2 →
    natCharsF f1 n = natCharsF f2 n := by
  intro f1
  induction f1 with
  | zero =>
    intro f2 n h1 _
    cases f2 with
    | zero => rfl
    | succ g =>
      have hn : n = 0 := by omega
      subst hn
      rfl
  | succ g ih =>
    intro f2 n h1 h2
    cases f2 with
    | zero =>
      have hn : n = 0 := by omega
      subst hn
      rfl
    | succ h =>
      show (if n < 10 then [decChar n] else natCharsF g (n / 10) ++ [decChar (n % 10)]) =
        (if n < 10 then [decChar n] else natCharsF h (n / 10) ++ [decChar (n % 10)])
      by_cases hsmall : n < 10
      · rw [if_pos hsmall, if_pos hsmall]
      · rw [if_neg hsmall, if_neg hsmall,
          ih h (n / 10) (by omega) (by omega)]

/-- The direct recursion equation for `natChars`. -/
theorem natChars_eq (n : Nat) :
    natChars n = if n < 10 then [decChar n]
      else natChars (n / 10) ++ [decChar (n % 10)] := by
  unfold natChars
  cases n with
  | zero => rfl
  | succ k =>
    show (if k + 1 < 10 then [decChar (k + 1)]
        else natCharsF k ((k + 1) / 10) ++ [decChar ((k + 1) % 10)]) = _
    by_cases hs : k + 1 < 10
    · rw [if_pos hs, if_pos hs]
    · rw [if_neg hs, if_neg hs,
        natCharsF_irrel k ((k + 1) / 10) ((k + 1) / 10) (by omega) (by omega)]

/-- The digit string of a natural number is nonempty. -/
theorem natChars_ne_nil (n : Nat) : natChars n ≠ [] := by
  rw [natChars_eq]
  split
  · simp
  · simp

/-- Every character of a decimal rendering is a digit. -/
theorem natChars_all_digit (n : Nat) : ∀ c ∈ natChars n, c.isDigit = true := by
  induction n using Nat.strong_induction_on with
  | _ n ih =>
    intro c hc
    rw [natChars_eq] at hc
    split at hc
    · rename_i h
      simp only [List.mem_singleton] at hc
      subst hc
      exact decChar_isDigit h
    · rename_i h
      rw [List.mem_append] at hc
      rcases hc with hc | hc
      · exact ih (n / 10) (Nat.div_lt_self (by omega) (by omega)) c hc
      · simp only [List.mem_singleton] at hc
        subst hc
        exact decChar_isDigit (Nat.mod_lt _ (by omega))

/-- The decimal rendering evaluates back to the number. -/
theorem charsVal_natChars (n : Nat) : charsVal (natChars n) = n := by
  induction n using Nat.strong_induction_on with
  | _ n ih =>
    rw [natChars_eq]
    split
    · rename_i h
      unfold charsVal
      simp [List.foldl, charVal_decChar h]
    · rename_i h
      rw [charsVal_append_singleton, ih (n / 10) (Nat.div_lt_self (by omega) (by omega)),
        charVal_decChar (Nat.mod_lt _ (by omega))]
      omega

/-- Leading zero characters do not change the numeric value. -/
theorem charsVal_replicate_zero (k : Nat) (l : List Char) :
    charsVal (List.replicate k (Char.ofNat 48) ++ l) = charsVal l := by
  induction k with
  | zero => rfl
  | succ k ih =>
    rw [List.replicate_succ, List.cons_append]
    unfold charsVal at *
    simp only [List.foldl_cons]
    have h0 : 10 * 0 + charVal (Char.ofNat 48) = 0 := by decide
    rw [h0]
    exact ih

/-- The zero-padded two-digit rendering evaluates back to the number, hence
the rendering is injective. -/
theorem charsVal_fmt02Chars (i : Nat) : charsVal (fmt02Chars i) = i := by
  unfold fmt02Chars
  rw [charsVal_replicate_zero, charsVal_natChars]

/-- `f"{i:02d}"` is injective. -/
theorem fmt02Chars_injective {i j : Nat} (h : fmt02Chars i = fmt02Chars j) : i = j := by
  have := charsVal_fmt02Chars i
  rw [h, charsVal_fmt02Chars] at this
  omega

/-- A list with no whitespace keeps its head under `dropWhile`. -/
theorem dropWhile_ws_eq_self {m : List Char} (hm : ∀ c ∈ m, pyWs c = false) :
    List.dropWhile pyWs m = m := by
  rw [List.dropWhile_eq_self_iff]
  intro hne
  have := hm _ (List.getElem_mem hne)
  simp [this]

/-- A list of non-whitespace characters strips to itself. -/
theorem pyStrip_eq_self {l : List Char} (h : ∀ c ∈ l, pyWs c = false) : pyStrip l = l := by
  unfold pyStrip
  rw [dropWhile_ws_eq_self h,
    dropWhile_ws_eq_self (fun c hc => h c (List.mem_reverse.mp hc)),
    List.reverse_reverse]

/-- Splitting a separator-free prefix followed by the separator. -/
theorem splitChar_append (sep : Char) (p rest : List Char)
    (hp : ∀ c ∈ p, c ≠ sep) :
    splitChar sep (p ++ sep :: rest) = p :: splitChar sep rest := by
  induction p with
  | nil =>
    rw [List.nil_append]
    show (if sep = sep then [] :: splitChar sep rest else _) = [] :: splitChar sep rest
    rw [if_pos rfl]
  | cons c cs ih =>
    have hc : c ≠ sep := hp c (by simp)
    have hrec := ih (fun x hx => hp x (by simp [hx]))
    rw [List.cons_append]
    show (if c = sep then [] :: splitChar sep (cs ++ sep :: rest)
      else match splitChar sep (cs ++ sep :: rest) with
        | [] => [[c]]
        | p :: ps => (c :: p) :: ps) = (c :: cs) :: splitChar sep rest
    rw [if_neg hc, hrec]

/-- Splitting a separator-free list yields the single piece. -/
theorem splitChar_no_sep (sep : Char) (p : List Char) (hp : ∀ c ∈ p, c ≠ sep) :
    splitChar sep p = [p] := by
  induction p with
  | nil => rfl
  | cons c cs ih =>
    have hc : c ≠ sep := hp c (by simp)
    have hrec := ih (fun x hx => hp x (by simp [hx]))
    show (if c = sep then [] :: splitChar sep cs
      else match splitChar sep cs with
        | [] => [[c]]
        | p :: ps => (c :: p) :: ps) = [c :: cs]
    rw [if_neg hc, hrec]

/-- Parsing a rendered natural number. -/
theorem parseDigits_natChars (n : Nat) : parseDigits (natChars n) = some n := by
  unfold parseDigits
  rw [if_pos ⟨natChars_ne_nil n, List.all_eq_true.mpr (natChars_all_digit n)⟩,
    charsVal_natChars]

/-- Every character of a decimal rendering is some digit character. -/
theorem natChars_mem (n : Nat) : ∀ c ∈ natChars n, ∃ d, d < 10 ∧ c = decChar d := by
  induction n using Nat.strong_induction_on with
  | _ n ih =>
    intro c hc
    rw [natChars_eq] at hc
    split at hc
    · rename_i h
      simp only [List.mem_singleton] at hc
      exact ⟨n, h, hc⟩
    · rename_i h
      rw [List.mem_append] at hc
      rcases hc with hc | hc
      · exact ih (n / 10) (Nat.div_lt_self (by omega) (by omega)) c hc
      · simp only [List.mem_singleton] at hc
        exact ⟨n % 10, Nat.mod_lt _ (by omega), hc⟩

/-- Digit characters are none of the structural characters of the plan file
(minus, plus, comma, point, hash). -/
theorem decChar_ne_special {d : Nat} (h : d < 10) :
    decChar d ≠ Char.ofNat 45 ∧ decChar d ≠ Char.ofNat 43 ∧ decChar d ≠ Char.ofNat 44 ∧
      decChar d ≠ Char.ofNat 46 ∧ decChar d ≠ Char.ofNat 35 := by
  interval_cases d <;> refine ⟨by decide, by decide, by decide, by decide, by decide⟩

/-- Rendered digits contain no whitespace. -/
theorem natChars_not_ws (n : Nat) : ∀ c ∈ natChars n, pyWs c = false := by
  intro c hc
  obtain ⟨d, hd, rfl⟩ := natChars_mem n c hc
  exact decChar_not_ws hd

/-- An integer rendering contains no whitespace. -/
theorem intChars_not_ws (i : Int) : ∀ c ∈ intChars i, pyWs c = false := by
  intro c hc
  unfold intChars at hc
  rw [List.mem_append] at hc
  rcases hc with hc | hc
  · split at hc
    · simp only [List.mem_singleton] at hc
      subst hc
      decide
    · simp at hc
  · exact natChars_not_ws _ c hc

/-- The decimal rendering of an integer parses back to it (Python
`int(str(i)) == i`). -/
theorem pyInt?_intChars (i : Int) : pyInt? (intChars i) = some i := by
  have hstrip : pyStrip (intChars i) = intChars i := pyStrip_eq_self (intChars_not_ws i)
  unfold pyInt?
  by_cases hneg : i < 0
  · have hform : intChars i = Char.ofNat 45 :: natChars i.natAbs := by
      unfold intChars
      rw [if_pos hneg, List.singleton_append]
    rw [hstrip, hform]
    dsimp only
    rw [if_pos rfl, parseDigits_natChars]
    simp only [Option.some.injEq]
    omega
  · have hform : intChars i = natChars i.natAbs := by
      unfold intChars
      rw [if_neg hneg, List.nil_append]
    obtain ⟨c, cs, hc⟩ : ∃ c cs, natChars i.natAbs = c :: cs := by
      cases h : natChars i.natAbs with
      | nil => exact absurd h (natChars_ne_nil _)
      | cons c cs => exact ⟨c, cs, rfl⟩
    obtain ⟨d, hd, hcd⟩ := natChars_mem i.natAbs c (by rw [hc]; simp)
    rw [hstrip, hform, hc]
    subst hcd
    dsimp only
    rw [if_neg (decChar_ne_special hd).1, if_neg (decChar_ne_special hd).2.1, ← hc,
      parseDigits_natChars]
    simp only [Option.some.injEq]
    omega

/-- Width of the zero-padded fractional rendering. -/
theorem padChars_length (n w : Nat) : (padChars n w).length = w := by
  induction w generalizing n with
  | zero => rfl
  | succ w ih =>
    unfold padChars
    rw [List.length_append, ih]
    simp

/-- Every character of the zero-padded rendering is some digit character. -/
theorem padChars_mem (n w : Nat) : ∀ c ∈ padChars n w, ∃ d, d < 10 ∧ c = decChar d := by
  induction w generalizing n with
  | zero => intro c hc; simp [padChars] at hc
  | succ w ih =>
    unfold padChars
    intro c hc
    rw [List.mem_append] at hc
    rcases hc with hc | hc
    · exact ih (n / 10) c hc
    · simp only [List.mem_singleton] at hc
      exact ⟨n % 10, Nat.mod_lt _ (by omega), hc⟩

/-- The zero-padded rendering evaluates to the number modulo `10 ^ w`. -/
theorem charsVal_padChars (n w : Nat) : charsVal (padChars n w) = n % 10 ^ w := by
  induction w generalizing n with
  | zero =>
    rw [pow_zero, Nat.mod_one]
    rfl
  | succ w ih =>
    unfold padChars
    rw [charsVal_append_singleton, ih, charVal_decChar (Nat.mod_lt _ (by omega))]
    have h1 : n % (10 * 10 ^ w) = n % 10 + 10 * (n / 10 % 10 ^ w) := Nat.mod_mul
    have h2 : (10 : Nat) ^ (w + 1) = 10 * 10 ^ w := by ring
    rw [h2, h1]
    omega

/-- `takeWhile`/`dropWhile` on an all-digit prefix followed by a non-digit. -/
theorem takeWhile_digit_prefix (xs ys : List Char) (y : Char)
    (hxs : ∀ x ∈ xs, x.isDigit = true) (hy : y.isDigit = false) :
    (xs ++ y :: ys).takeWhile Char.isDigit = xs ∧
      (xs ++ y :: ys).dropWhile Char.isDigit = y :: ys := by
  induction xs with
  | nil =>
    constructor
    · rw [List.nil_append, List.takeWhile_cons, hy]
      simp
    · rw [List.nil_append, List.dropWhile_cons, hy]
      simp
  | cons x xs ih =>
    have hx : x.isDigit = true := hxs x (by simp)
    obtain ⟨ht, hd⟩ := ih (fun a ha => hxs a (by simp [ha]))
    constructor
    · rw [List.cons_append, List.takeWhile_cons, hx]
      simp [ht]
    · rw [List.cons_append, List.dropWhile_cons, hx]
      simp [hd]

/-- The unsigned fixed-point rendering of a nonnegative scaled value parses
back to `m / 10 ^ d`. -/
theorem parseFloatBody_fixed (m : Nat) (d : Nat) :
    parseFloatBody (natChars (m / 10 ^ d) ++ Char.ofNat 46 :: padChars (m % 10 ^ d) d) =
      some ((m : ℚ) / 10 ^ d) := by
  obtain ⟨ht, hdw⟩ := takeWhile_digit_prefix (natChars (m / 10 ^ d))
    (padChars (m % 10 ^ d) d) (Char.ofNat 46) (natChars_all_digit _) (by decide)
  have hdig : (padChars (m % 10 ^ d) d).all Char.isDigit = true := by
    rw [List.all_eq_true]
    intro c hc
    obtain ⟨dd, hdd, rfl⟩ := padChars_mem _ _ c hc
    exact decChar_isDigit hdd
  unfold parseFloatBody
  rw [ht, hdw]
  dsimp only
  rw [if_pos ⟨rfl, hdig, Or.inl (natChars_ne_nil _)⟩]
  rw [charsVal_natChars, charsVal_padChars, padChars_length,
    Nat.mod_mod_of_dvd _ (dvd_refl _)]
  have hne : ((10 : ℚ) ^ d) ≠ 0 := by positivity
  have hsplit : m = 10 ^ d * (m / 10 ^ d) + m % 10 ^ d := (Nat.div_add_mod m (10 ^ d)).symm
  have hq : (m : ℚ) = 10 ^ d * ((m / 10 ^ d : ℕ) : ℚ) + ((m % 10 ^ d : ℕ) : ℚ) := by
    exact_mod_cast congrArg (fun z : ℕ => (z : ℚ)) hsplit
  rw [Option.some.injEq, hq]
  rw [eq_div_iff hne, add_mul, div_mul_cancel₀ _ hne]
  ring

/-- Fixed-point renderings contain no whitespace. -/
theorem fmtFixedChars_not_ws (n : Int) (d : Nat) :
    ∀ c ∈ fmtFixedChars n d, pyWs c = false := by
  intro c hc
  unfold fmtFixedChars at hc
  rw [List.append_assoc, List.mem_append] at hc
  rcases hc with hc | hc
  · split at hc
    · simp only [List.mem_singleton] at hc
      subst hc
      decide
    · simp at hc
  · rw [List.mem_append] at hc
    rcases hc with hc | hc
    · exact natChars_not_ws _ c hc
    · split at hc
      · simp at hc
      · rcases List.mem_cons.mp hc with hc | hc
        · subst hc; decide
        · obtain ⟨dd, hdd, rfl⟩ := padChars_mem _ _ c hc
          exact decChar_not_ws hdd

/-- The fixed-point rendering of a scaled integer parses back to
`n / 10 ^ d` (Python `float(f"{x:.df}")`). -/
theorem pyFloat?_fmtFixedChars (n : Int) (d : Nat) (hd : 0 < d) :
    pyFloat? (fmtFixedChars n d) = some ((n : ℚ) / 10 ^ d) := by
  have hstrip : pyStrip (fmtFixedChars n d) = fmtFixedChars n d :=
    pyStrip_eq_self (fmtFixedChars_not_ws n d)
  have hdne : d ≠ 0 := by omega
  unfold pyFloat?
  rw [hstrip]
  by_cases hneg : n < 0
  · have hform : fmtFixedChars n d = Char.ofNat 45 ::
        (natChars (n.natAbs / 10 ^ d) ++ Char.ofNat 46 :: padChars (n.natAbs % 10 ^ d) d) := by
      unfold fmtFixedChars
      rw [if_pos hneg, if_neg hdne, List.append_assoc, List.singleton_append]
    rw [hform]
    dsimp only
    rw [if_pos rfl, parseFloatBody_fixed _ _]
    simp only [Option.map_some', Option.some.injEq]
    have hcast : ((n.natAbs : ℕ) : ℚ) = -(n : ℚ) := by
      rw [Int.cast_natAbs]
      exact_mod_cast abs_of_neg hneg
    rw [hcast]
    ring
  · have hform : fmtFixedChars n d =
        natChars (n.natAbs / 10 ^ d) ++ Char.ofNat 46 :: padChars (n.natAbs % 10 ^ d) d := by
      unfold fmtFixedChars
      rw [if_neg hneg, if_neg hdne, List.nil_append]
    obtain ⟨c, cs, hc⟩ : ∃ c cs, natChars (n.natAbs / 10 ^ d) = c :: cs := by
      cases h : natChars (n.natAbs / 10 ^ d) with
      | nil => exact absurd h (natChars_ne_nil _)
      | cons c cs => exact ⟨c, cs, rfl⟩
    obtain ⟨dd, hdd, hcd⟩ := natChars_mem _ c (by rw [hc]; simp)
    rw [hform, hc, List.cons_append]
    subst hcd
    dsimp only
    rw [if_neg (decChar_ne_special hdd).1, if_neg (decChar_ne_special hdd).2.1,
      ← List.cons_append, ← hc, parseFloatBody_fixed _ _]
    rw [Option.some.injEq]
    have hcast : ((n.natAbs : ℕ) : ℚ) = (n : ℚ) := by
      rw [Int.cast_natAbs]
      exact_mod_cast abs_of_nonneg (not_lt.mp hneg)
    rw [hcast]

/-! ## The identity-plan file: saving and loading -/

/-- A comment line of the plan file: first character `#`. -/
def startsHash (l : String) : Bool := l.data.head? = some (Char.ofNat 35)

/-- The entry that survives a save/load round trip: base frequency kept
exactly, the float fields rounded to the persisted 2/5/1 decimal places. -/
def roundEntry (e : IdenEntry) : IdenEntry :=
  ⟨e.channel_id, e.base_freq, roundTo 2 e.spacing, roundTo 5 e.input_offset,
    roundTo 1 e.bandwidth⟩

/-- Setting a fresh key appends the pair. -/
theorem dictSet_fresh (l : List (Int × IdenEntry)) (k : Int) (e : IdenEntry)
    (h : k ∉ l.map Prod.fst) : dictSet l k e = l ++ [(k, e)] := by
  induction l with
  | nil => rfl
  | cons p rest ih =>
    obtain ⟨k1, v1⟩ := p
    have hk : k1 ≠ k := fun hEq => h (by simp [hEq])
    have h2 : k ∉ rest.map Prod.fst := fun hm => h (by simp [hm])
    unfold dictSet
    rw [if_neg hk, ih h2]
    rfl

/-- A blank or comment line is skipped by the load loop. -/
theorem loadStep_skip (line : String)
    (h : pyStrip line.data = [] ∨ (pyStrip line.data).head? = some (Char.ofNat 35))
    (acc : IdenTable × List String) : loadStep acc line = acc := by
  dsimp only [loadStep]
  rw [if_pos h]

/-- The six header lines are all skipped. -/
theorem loadLines_header (acc : IdenTable × List String) :
    idenHeaderLines.foldl loadStep acc = acc := by
  have h1 : ∀ (l : String),
      (pyStrip l.data = [] ∨ (pyStrip l.data).head? = some (Char.ofNat 35)) →
      ∀ a, loadStep a l = a := fun l h a => loadStep_skip l h a
  unfold idenHeaderLines
  simp only [List.foldl_cons, List.foldl_nil]
  rw [h1 "#" (by decide), h1 "# Identity Table - Frequency Bandplan" (by decide),
    h1 "# Generated by DVMCfg" (by decide), h1 "#" (by decide),
    h1 "# ChId,Base Freq (Hz),Spacing (kHz),Input Offset (MHz),Bandwidth (kHz)," (by decide),
    h1 "#" (by decide)]

/-- The characters of an integer rendering: a sign or a digit. -/
theorem intChars_mem (i : Int) :
    ∀ c ∈ intChars i, c = Char.ofNat 45 ∨ ∃ d, d < 10 ∧ c = decChar d := by
  intro c hc
  unfold intChars at hc
  rw [List.mem_append] at hc
  rcases hc with hc | hc
  · split at hc
    · simp only [List.mem_singleton] at hc
      exact Or.inl hc
    · simp at hc
  · exact Or.inr (natChars_mem _ c hc)

/-- The characters of a fixed-point rendering: a sign, a point or a digit. -/
theorem fmtFixedChars_mem (n : Int) (d : Nat) :
    ∀ c ∈ fmtFixedChars n d,
      c = Char.ofNat 45 ∨ c = Char.ofNat 46 ∨ ∃ dd, dd < 10 ∧ c = decChar dd := by
  intro c hc
  unfold fmtFixedChars at hc
  rw [List.append_assoc, List.mem_append] at hc
  rcases hc with hc | hc
  · split at hc
    · simp only [List.mem_singleton] at hc
      exact Or.inl hc
    · simp at hc
  · rw [List.mem_append] at hc
    rcases hc with hc | hc
    · exact Or.inr (Or.inr (natChars_mem _ c hc))
    · split at hc
      · simp at hc
      · rcases List.mem_cons.mp hc with hc | hc
        · exact Or.inr (Or.inl hc)
        · exact Or.inr (Or.inr (padChars_mem _ _ c hc))

/-- A data-line piece (integer rendering) has no comma and no whitespace. -/
theorem intChars_clean (i : Int) :
    ∀ c ∈ intChars i, c ≠ Char.ofNat 44 ∧ pyWs c = false := by
  intro c hc
  refine ⟨?_, intChars_not_ws i c hc⟩
  rcases intChars_mem i c hc with hc2 | ⟨d, hd, hc2⟩ <;> subst hc2
  · decide
  · exact (decChar_ne_special hd).2.2.1

/-- A data-line piece (fixed-point rendering) has no comma and no whitespace. -/
theorem fmtFixedChars_clean (n : Int) (d : Nat) :
    ∀ c ∈ fmtFixedChars n d, c ≠ Char.ofNat 44 ∧ pyWs c = false := by
  intro c hc
  refine ⟨?_, fmtFixedChars_not_ws n d c hc⟩
  rcases fmtFixedChars_mem n d c hc with hc2 | hc2 | ⟨dd, hdd, hc2⟩ <;> subst hc2
  · decide
  · decide
  · exact (decChar_ne_special hdd).2.2.1

/-- A fixed-point rendering is nonempty. -/
theorem fmtFixedChars_ne_nil (n : Int) (d : Nat) : fmtFixedChars n d ≠ [] := by
  unfold fmtFixedChars
  intro h
  rcases List.append_eq_nil.mp h with ⟨h1, _⟩
  rcases List.append_eq_nil.mp h1 with ⟨_, h3⟩
  exact natChars_ne_nil _ h3

/-- An integer rendering is nonempty. -/
theorem intChars_ne_nil (i : Int) : intChars i ≠ [] := by
  unfold intChars
  intro h
  rcases List.append_eq_nil.mp h with ⟨_, h2⟩
  exact natChars_ne_nil _ h2

/-- Splitting a saved data line at commas yields the five field renderings
and one empty trailing piece. -/
theorem splitChar_toLineChars (e : IdenEntry) :
    splitChar (Char.ofNat 44) e.toLineChars =
      [intChars e.channel_id, intChars e.base_freq,
       fmtFixedChars (rhe (e.spacing * 10 ^ 2)) 2,
       fmtFixedChars (rhe (e.input_offset * 10 ^ 5)) 5,
       fmtFixedChars (rhe (e.bandwidth * 10 ^ 1)) 1, []] := by
  unfold IdenEntry.toLineChars
  simp only [List.append_assoc, List.cons_append]
  rw [splitChar_append _ _ _ (fun c hc => (intChars_clean _ c hc).1),
    splitChar_append _ _ _ (fun c hc => (intChars_clean _ c hc).1),
    splitChar_append _ _ _ (fun c hc => (fmtFixedChars_clean _ _ c hc).1),
    splitChar_append _ _ _ (fun c hc => (fmtFixedChars_clean _ _ c hc).1),
    splitChar_append _ _ _ (fun c hc => (fmtFixedChars_clean _ _ c hc).1)]
  rfl

/-- A saved data line has no whitespace anywhere. -/
theorem toLineChars_not_ws (e : IdenEntry) : ∀ c ∈ e.toLineChars, pyWs c = false := by
  have hcomma : pyWs (Char.ofNat 44) = false := by decide
  intro c hc
  unfold IdenEntry.toLineChars at hc
  simp only [List.append_assoc, List.cons_append] at hc
  rw [List.mem_append] at hc
  rcases hc with hc | hc
  · exact (intChars_clean _ c hc).2
  rw [List.mem_cons] at hc
  rcases hc with rfl | hc
  · exact hcomma
  rw [List.mem_append] at hc
  rcases hc with hc | hc
  · exact (intChars_clean _ c hc).2
  rw [List.mem_cons] at hc
  rcases hc with rfl | hc
  · exact hcomma
  rw [List.mem_append] at hc
  rcases hc with hc | hc
  · exact (fmtFixedChars_clean _ _ c hc).2
  rw [List.mem_cons] at hc
  rcases hc with rfl | hc
  · exact hcomma
  rw [List.mem_append] at hc
  rcases hc with hc | hc
  · exact (fmtFixedChars_clean _ _ c hc).2
  rw [List.mem_cons] at hc
  rcases hc with rfl | hc
  · exact hcomma
  rw [List.mem_append] at hc
  rcases hc with hc | hc
  · exact (fmtFixedChars_clean _ _ c hc).2
  rw [List.mem_singleton] at hc
  subst hc
  exact hcomma

/-- One load-loop step on a saved data line whose channel id is legal:
the (rounded) entry is stored and no warning is recorded. -/
theorem loadStep_toLine (acc : IdenTable × List String) (e : IdenEntry)
    (h0 : 0 ≤ e.channel_id) (h15 : e.channel_id ≤ 15) :
    loadStep acc e.to_line =
      (⟨dictSet acc.1.entries e.channel_id (roundEntry e)⟩, acc.2) := by
  have hfilter : ∀ (l : List Char) (rest : List (List Char)), l ≠ [] →
      List.filter (fun x => x ≠ []) (l :: rest) =
        l :: List.filter (fun x => x ≠ []) rest := by
    intro l rest h
    rw [List.filter_cons_of_pos]
    simpa using h
  have hdata : (IdenEntry.to_line e).data = e.toLineChars := rfl
  have hstrip : pyStrip e.toLineChars = e.toLineChars :=
    pyStrip_eq_self (toLineChars_not_ws e)
  obtain ⟨c, cs, hc⟩ : ∃ c cs, intChars e.channel_id = c :: cs := by
    cases h : intChars e.channel_id with
    | nil => exact absurd h (intChars_ne_nil _)
    | cons c cs => exact ⟨c, cs, rfl⟩
  have hhead : e.toLineChars.head? = some c := by
    unfold IdenEntry.toLineChars
    rw [hc]
    rfl
  have hcne : c ≠ Char.ofNat 35 := by
    rcases intChars_mem e.channel_id c (by rw [hc]; simp) with h45 | ⟨d, hd, hdc⟩
    · subst h45; decide
    · subst hdc; exact (decChar_ne_special hd).2.2.2.2
  dsimp only [loadStep]
  rw [hdata, hstrip]
  rw [if_neg (by
    rintro (hnil | hhash)
    · rw [hnil] at hhead
      exact absurd hhead (by simp)
    · rw [hhead] at hhash
      exact hcne (by simpa using hhash))]
  rw [splitChar_toLineChars]
  simp only [List.map_cons, List.map_nil]
  rw [pyStrip_eq_self (fun x hx => (intChars_clean _ x hx).2),
    pyStrip_eq_self (fun x hx => (intChars_clean _ x hx).2),
    pyStrip_eq_self (fun x hx => (fmtFixedChars_clean _ _ x hx).2),
    pyStrip_eq_self (fun x hx => (fmtFixedChars_clean _ _ x hx).2),
    pyStrip_eq_self (fun x hx => (fmtFixedChars_clean _ _ x hx).2)]
  have hstripnil : pyStrip ([] : List Char) = [] := rfl
  rw [hstripnil]
  rw [hfilter _ _ (intChars_ne_nil _), hfilter _ _ (intChars_ne_nil _),
    hfilter _ _ (fmtFixedChars_ne_nil _ _), hfilter _ _ (fmtFixedChars_ne_nil _ _),
    hfilter _ _ (fmtFixedChars_ne_nil _ _)]
  have hfilternil : List.filter (fun x => x ≠ []) [([] : List Char)] = [] := by decide
  rw [hfilternil]
  dsimp only
  rw [pyInt?_intChars, pyInt?_intChars,
    pyFloat?_fmtFixedChars _ 2 (by norm_num), pyFloat?_fmtFixedChars _ 5 (by norm_num),
    pyFloat?_fmtFixedChars _ 1 (by norm_num)]
  dsimp only
  unfold IdenTable.add_entry
  rw [if_neg (by dsimp only; omega)]
  rfl

/-- Folding the load loop over saved data lines with fresh, legal channel ids
appends the rounded entries in order and records no warnings. -/
theorem loadLines_data (es : List IdenEntry) (t0 : IdenTable) (w0 : List String)
    (hids : ∀ e ∈ es, 0 ≤ e.channel_id ∧ e.channel_id ≤ 15)
    (hnd : (es.map (fun e => e.channel_id)).Nodup)
    (hdisj : ∀ e ∈ es, e.channel_id ∉ t0.entries.map Prod.fst) :
    (es.map IdenEntry.to_line).foldl loadStep (t0, w0) =
      (⟨t0.entries ++ es.map (fun e => (e.channel_id, roundEntry e))⟩, w0) := by
  induction es generalizing t0 with
  | nil =>
    simp only [List.map_nil, List.foldl_nil, List.append_nil]
  | cons e rest ih =>
    have hnd2 : (e.channel_id :: rest.map (fun x => x.channel_id)).Nodup := by
      simpa using hnd
    simp only [List.map_cons, List.foldl_cons]
    rw [loadStep_toLine (t0, w0) e (hids e (by simp)).1 (hids e (by simp)).2,
      dictSet_fresh _ _ _ (hdisj e (by simp))]
    have hrec := ih ⟨t0.entries ++ [(e.channel_id, roundEntry e)]⟩
      (fun x hx => hids x (by simp [hx]))
      (List.nodup_cons.mp hnd2).2
      (by
        intro x hx
        dsimp only
        rw [List.map_append, List.mem_append]
        rintro (hm | hm)
        · exact hdisj x (by simp [hx]) hm
        · simp only [List.map_cons, List.map_nil, List.mem_singleton] at hm
          exact (List.nodup_cons.mp hnd2).1 (by
            rw [← hm]
            exact List.mem_map_of_mem _ hx))
    rw [hrec]
    simp

/-- A table lookup succeeds exactly for stored keys. -/
theorem get_entry_isSome_iff (t : IdenTable) (k : Int) :
    (t.get_entry k).isSome ↔ k ∈ t.entries.map Prod.fst := by
  unfold IdenTable.get_entry
  constructor
  · intro h
    cases hf : t.entries.find? (fun p => p.1 = k) with
    | none => rw [hf] at h; simp at h
    | some p =>
      have hp1 : p.1 = k := by simpa using List.find?_some hf
      have hmem := List.mem_of_find?_eq_some hf
      rw [List.mem_map]
      exact ⟨p, hmem, hp1⟩
  · intro h
    rw [List.mem_map] at h
    obtain ⟨p, hp, hp1⟩ := h
    have : (t.entries.find? (fun p => p.1 = k)).isSome :=
      List.find?_isSome.mpr ⟨p, hp, by simp [hp1]⟩
    cases hf : t.entries.find? (fun p => p.1 = k) with
    | none => rw [hf] at this; simp at this
    | some q => rfl

/-- In a well-formed table, a successful lookup returns the entry stored
under its own channel id. -/
theorem get_entry_eq_of_wf (t : IdenTable) (hwf : t.WF) {k : Int} {e : IdenEntry}
    (h : t.get_entry k = some e) : e.channel_id = k ∧ (k, e) ∈ t.entries := by
  unfold IdenTable.get_entry at h
  cases hf : t.entries.find? (fun p => p.1 = k) with
  | none => rw [hf] at h; simp at h
  | some p =>
    rw [hf] at h
    simp only [Option.some.injEq] at h
    have hp1 : p.1 = k := by simpa using List.find?_some hf
    have hmem := List.mem_of_find?_eq_some hf
    have hid := hwf.2 p hmem
    subst h
    refine ⟨by omega, ?_⟩
    have : p = (k, p.2) := by
      rw [← hp1]
    rw [← this]
    exact hmem

/-- The sorted key list is a permutation of the stored keys. -/
theorem sortedKeys_perm (t : IdenTable) :
    t.sortedKeys.Perm (t.entries.map Prod.fst) := List.perm_insertionSort _ _

/-- The saved entries are the stored entries in ascending key order: their
channel ids are exactly the sorted keys. -/
theorem savedEntries_map_key (t : IdenTable) (hwf : t.WF) :
    t.savedEntries.map (fun e => e.channel_id) = t.sortedKeys := by
  unfold IdenTable.savedEntries
  have hmem : ∀ k ∈ t.sortedKeys, k ∈ t.entries.map Prod.fst :=
    fun k hk => (sortedKeys_perm t).mem_iff.mp hk
  revert hmem
  generalize t.sortedKeys = ks
  intro hmem
  induction ks with
  | nil => rfl
  | cons k rest ih =>
    have hk : (t.get_entry k).isSome :=
      (get_entry_isSome_iff t k).mpr (hmem k (by simp))
    obtain ⟨e, he⟩ := Option.isSome_iff_exists.mp hk
    rw [List.filterMap_cons, he]
    simp only [List.map_cons]
    rw [ih (fun x hx => hmem x (by simp [hx]))]
    rw [(get_entry_eq_of_wf t hwf he).1]

/-- Membership in the saved entries from a successful lookup on a sorted key. -/
theorem mem_savedEntries (t : IdenTable) {k : Int} {e : IdenEntry}
    (hk : k ∈ t.sortedKeys) (he : t.get_entry k = some e) : e ∈ t.savedEntries :=
  List.mem_filterMap.mpr ⟨k, hk, he⟩

/-- With distinct keys, `find?` returns the unique stored pair. -/
theorem find?_key_unique {β : Type} (l : List (Int × β)) (k : Int) (v : β)
    (hnd : (l.map Prod.fst).Nodup) (hmem : (k, v) ∈ l) :
    l.find? (fun p => p.1 = k) = some (k, v) := by
  induction l with
  | nil => simp at hmem
  | cons p rest ih =>
    have hnd2 : (p.1 :: rest.map Prod.fst).Nodup := by simpa using hnd
    rcases List.mem_cons.mp hmem with rfl | hmem2
    · rw [List.find?_cons_of_pos _ (by simp)]
    · have hk : p.1 ≠ k := by
        intro hEq
        exact (List.nodup_cons.mp hnd2).1 (by
          rw [hEq]
          exact List.mem_map_of_mem _ hmem2)
      rw [List.find?_cons_of_neg _ (by simp [hk])]
      exact ih (List.nodup_cons.mp hnd2).2 hmem2

/-- Appending to a list whose elements all satisfy the predicate pushes
`takeWhile` across the append. -/
theorem takeWhile_append_all {α : Type} {p : α → Bool} (h d : List α)
    (hh : ∀ x ∈ h, p x = true) : (h ++ d).takeWhile p = h ++ d.takeWhile p := by
  induction h with
  | nil => rfl
  | cons x xs ih =>
    rw [List.cons_append, List.takeWhile_cons, hh x (by simp)]
    rw [ih (fun a ha => hh a (by simp [ha]))]
    rfl

/-- A saved data line does not begin with `#`. -/
theorem to_line_not_hash (e : IdenEntry) : startsHash e.to_line = false := by
  obtain ⟨c, cs, hc⟩ : ∃ c cs, intChars e.channel_id = c :: cs := by
    cases h : intChars e.channel_id with
    | nil => exact absurd h (intChars_ne_nil _)
    | cons c cs => exact ⟨c, cs, rfl⟩
  have hhead : (IdenEntry.to_line e).data.head? = some c := by
    show e.toLineChars.head? = some c
    unfold IdenEntry.toLineChars
    rw [hc]
    rfl
  have hcne : c ≠ Char.ofNat 35 := by
    rcases intChars_mem e.channel_id c (by rw [hc]; simp) with h45 | ⟨d, hd, hdc⟩
    · subst h45; decide
    · subst hdc; exact (decChar_ne_special hd).2.2.2.2
  unfold startsHash
  rw [hhead]
  simpa using hcne

/-! ## Claim C4: the persisted file format -/

/-- The statement of claim C4 at one table: a header of exactly five comment
lines, then one data line per entry in ascending channel id order. -/
def C4ClaimAt (t : IdenTable) : Prop :=
  (t.saveLines.takeWhile startsHash).length = 5 ∧
  t.saveLines = t.saveLines.takeWhile startsHash ++ t.savedEntries.map IdenEntry.to_line

/-- Claim C4 as stated is false: `IdenTable.save` writes six comment lines
before the data (`#`, title, generator, `#`, column legend, `#`), not five
— shown on the empty table. -/
theorem C4_counterexample : ¬ C4ClaimAt ⟨[]⟩ := by
  intro h
  have h5 := h.1
  have h6 : ((IdenTable.saveLines ⟨[]⟩).takeWhile startsHash).length = 6 := by decide
  omega

/-- Claim C4 corrected: the saved file is a header of exactly SIX comment
lines followed by one `to_line` data line per stored entry, in ascending
channel id order with no repetition, each line ending in a comma. -/
theorem C4_amended (t : IdenTable) (hwf : t.WF) :
    t.saveLines = idenHeaderLines ++ t.savedEntries.map IdenEntry.to_line ∧
    idenHeaderLines.length = 6 ∧
    (∀ l ∈ idenHeaderLines, startsHash l = true) ∧
    (t.saveLines.takeWhile startsHash).length = 6 ∧
    t.savedEntries.map (fun e => e.channel_id) = t.sortedKeys ∧
    List.Sorted (· ≤ ·) (t.savedEntries.map (fun e => e.channel_id)) ∧
    (t.savedEntries.map (fun e => e.channel_id)).Nodup ∧
    t.sortedKeys.Perm (t.entries.map Prod.fst) ∧
    (∀ e, ∃ X, (IdenEntry.to_line e).data = X ++ [Char.ofNat 44]) := by
  have hkey := savedEntries_map_key t hwf
  refine ⟨rfl, rfl, by decide, ?_, hkey, ?_, ?_, sortedKeys_perm t, ?_⟩
  · show ((idenHeaderLines ++ t.savedEntries.map IdenEntry.to_line).takeWhile
      startsHash).length = 6
    rw [takeWhile_append_all _ _ (by decide)]
    cases hse : t.savedEntries with
    | nil => rfl
    | cons e rest =>
      simp only [List.map_cons, List.takeWhile_cons, to_line_not_hash]
      rfl
  · rw [hkey]
    exact List.sorted_insertionSort _ _
  · rw [hkey]
    exact ((sortedKeys_perm t).nodup_iff).mpr hwf.1
  · intro e
    refine ⟨intChars e.channel_id ++ Char.ofNat 44 :: intChars e.base_freq ++
      Char.ofNat 44 :: fmtFixedChars (rhe (e.spacing * 10 ^ 2)) 2 ++
      Char.ofNat 44 :: fmtFixedChars (rhe (e.input_offset * 10 ^ 5)) 5 ++
      Char.ofNat 44 :: fmtFixedChars (rhe (e.bandwidth * 10 ^ 1)) 1, ?_⟩
    show e.toLineChars = _
    unfold IdenEntry.toLineChars
    simp [List.append_assoc, List.cons_append]

/-- Witness for the corrected claim C4 on a one-entry well-formed table. -/
theorem C4_amended_witness :
    ((IdenTable.saveLines ⟨[(3, ⟨3, 146000000, 6.25, 0.6, 12.5⟩)]⟩).takeWhile
      startsHash).length = 6 := by
  have hwf : IdenTable.WF ⟨[(3, ⟨3, 146000000, 6.25, 0.6, 12.5⟩)]⟩ := by
    constructor
    · decide
    · intro p hp
      simp only [List.mem_singleton] at hp
      subst hp
      rfl
  exact (C4_amended ⟨[(3, ⟨3, 146000000, 6.25, 0.6, 12.5⟩)]⟩ hwf).2.2.2.1

/-! ## Claim C5: save/load round trip -/

/-- Claim C5: for a well-formed table with channel ids in 0..15, saving and
loading yields the same key set, no warnings, and per key the base frequency
exactly with the float fields rounded to 2/5/1 decimal places. -/
theorem C5_roundtrip (t : IdenTable) (hwf : t.WF)
    (hids : ∀ p ∈ t.entries, 0 ≤ p.1 ∧ p.1 ≤ 15) :
    (∀ id : Int, ((loadLines t.saveLines).1.get_entry id).isSome ↔
      (t.get_entry id).isSome) ∧
    (loadLines t.saveLines).2 = [] ∧
    (∀ id e, t.get_entry id = some e →
      (loadLines t.saveLines).1.get_entry id =
        some ⟨e.channel_id, e.base_freq, roundTo 2 e.spacing, roundTo 5 e.input_offset,
          roundTo 1 e.bandwidth⟩) := by
  have hids2 : ∀ e ∈ t.savedEntries, 0 ≤ e.channel_id ∧ e.channel_id ≤ 15 := by
    intro e he
    obtain ⟨k, hk, hke⟩ := List.mem_filterMap.mp he
    obtain ⟨hid, hmem⟩ := get_entry_eq_of_wf t hwf hke
    have := hids (k, e) hmem
    omega
  have hnd : (t.savedEntries.map (fun e => e.channel_id)).Nodup := by
    rw [savedEntries_map_key t hwf]
    exact ((sortedKeys_perm t).nodup_iff).mpr hwf.1
  have hload : loadLines t.saveLines =
      (⟨t.savedEntries.map (fun e => (e.channel_id, roundEntry e))⟩, []) := by
    show (idenHeaderLines ++ t.savedEntries.map IdenEntry.to_line).foldl loadStep (⟨[]⟩, []) = _
    rw [List.foldl_append, loadLines_header]
    have := loadLines_data t.savedEntries ⟨[]⟩ [] hids2 hnd (by simp)
    rw [this]
    rfl
  have hkeys : (t.savedEntries.map (fun e => (e.channel_id, roundEntry e))).map Prod.fst =
      t.sortedKeys := by
    rw [List.map_map, ← savedEntries_map_key t hwf]
    rfl
  refine ⟨?_, by rw [hload], ?_⟩
  · intro id
    rw [hload]
    rw [get_entry_isSome_iff, get_entry_isSome_iff]
    show id ∈ (t.savedEntries.map (fun e => (e.channel_id, roundEntry e))).map Prod.fst ↔ _
    rw [hkeys]
    exact (sortedKeys_perm t).mem_iff
  · intro id e he
    have hsome : (t.get_entry id).isSome := by rw [he]; rfl
    have hidmem : id ∈ t.entries.map Prod.fst := (get_entry_isSome_iff t id).mp hsome
    have hidsk : id ∈ t.sortedKeys := (sortedKeys_perm t).mem_iff.mpr hidmem
    have hemem : e ∈ t.savedEntries := mem_savedEntries t hidsk he
    have hid : e.channel_id = id := (get_entry_eq_of_wf t hwf he).1
    rw [hload]
    show (IdenTable.mk _).get_entry id = _
    unfold IdenTable.get_entry
    have hpair : ((id : Int), roundEntry e) ∈
        t.savedEntries.map (fun x => (x.channel_id, roundEntry x)) := by
      rw [List.mem_map]
      exact ⟨e, hemem, by rw [hid]⟩
    have hndk : t.sortedKeys.Nodup := ((sortedKeys_perm t).nodup_iff).mpr hwf.1
    rw [find?_key_unique _ id (roundEntry e) (by rw [hkeys]; exact hndk) hpair]
    rfl

/-- Witness for claim C5 on a concrete one-entry table. -/
theorem C5_roundtrip_witness :
    ((loadLines (IdenTable.saveLines ⟨[(3, ⟨3, 146000000, 6.25, 0.6, 12.5⟩)]⟩)).2 = []) ∧
    (∀ id e, IdenTable.get_entry ⟨[(3, ⟨3, 146000000, 6.25, 0.6, 12.5⟩)]⟩ id = some e →
      (loadLines (IdenTable.saveLines ⟨[(3, ⟨3, 146000000, 6.25, 0.6, 12.5⟩)]⟩)).1.get_entry id =
        some ⟨e.channel_id, e.base_freq, roundTo 2 e.spacing, roundTo 5 e.input_offset,
          roundTo 1 e.bandwidth⟩) := by
  have hwf : IdenTable.WF ⟨[(3, ⟨3, 146000000, 6.25, 0.6, 12.5⟩)]⟩ := by
    constructor
    · decide
    · intro p hp
      simp only [List.mem_singleton] at hp
      subst hp
      rfl
  have h := C5_roundtrip ⟨[(3, ⟨3, 146000000, 6.25, 0.6, 12.5⟩)]⟩ hwf
    (by
      intro p hp
      simp only [List.mem_singleton] at hp
      subst hp
      exact ⟨by norm_num, by norm_num⟩)
  exact ⟨h.2.1, h.2.2⟩

/-! ## Claim C6: loading a file with one good line and one `garbage` line -/

/-- The well-formed data line of the claim C6 scenario. -/
def goodLine : String := "3,146000000,6.25,0.60000,12.5,"

/-- The statement of claim C6: the load succeeds with exactly one entry and
records a warning for the `garbage` line. -/
def C6Claim : Prop :=
  (loadLines [goodLine, "garbage"]).1.entries.length = 1 ∧
  (loadLines [goodLine, "garbage"]).2.length = 1

/-- Claim C6 as stated is false: `garbage` splits into a single
comma-separated field, so the `len(parts) >= 5` guard skips the line without
ever reaching the warning branch — no warning is recorded. -/
theorem C6_counterexample : ¬ C6Claim := by
  intro h
  unfold C6Claim at h
  obtain ⟨_, hw⟩ := h
  have h2 : (loadLines [goodLine, "garbage"]).2.length = 0 := by decide
  omega

/-- Claim C6 corrected: the load succeeds (it is total and never aborts),
yields exactly one entry, stored under channel id 3, but records NO warning:
the `garbage` line is skipped silently because it has fewer than five fields. -/
theorem C6_amended :
    (loadLines [goodLine, "garbage"]).1.entries.length = 1 ∧
    ((loadLines [goodLine, "garbage"]).1.get_entry 3).isSome = true ∧
    (loadLines [goodLine, "garbage"]).2 = [] := by
  refine ⟨by decide, by decide, by decide⟩

/-! ## Decomposing `validate` runs -/

/-- Splitting a successful `Except` bind. -/
theorem except_bind_ok {α β : Type} {x : Except String α} {f : α → Except String β} {b : β}
    (h : x >>= f = Except.ok b) : ∃ a, x = .ok a ∧ f a = .ok b := by
  cases x with
  | error e => exact absurd h (by simp [Bind.bind, Except.bind])
  | ok a => exact ⟨a, rfl, by simpa [Bind.bind, Except.bind] using h⟩

/-- Membership in a one-message conditional. -/
theorem mem_condMsg {m msg : String} {b : Prop} [Decidable b]
    (h : m ∈ (if b then [msg] else [])) : m = msg := by
  split at h
  · simpa using h
  · simp at h

/-- The network checks can only emit their own three messages. -/
theorem networkChecks_sub (c : CVal) (l : List String) (h : networkChecks c = .ok l) :
    ∀ m ∈ l, m = "Invalid network.address" ∨ m = "Invalid network.port" ∨
      m = "Invalid network.presharedKey (must be 64 hex characters)" := by
  unfold networkChecks at h
  split at h
  · obtain ⟨addr, _, h⟩ := except_bind_ok h
    obtain ⟨addrOk, _, h⟩ := except_bind_ok h
    obtain ⟨port, _, h⟩ := except_bind_ok h
    obtain ⟨e3, he3, h⟩ := except_bind_ok h
    simp only [pure, Except.pure, Except.ok.injEq] at h
    subst h
    intro m hm
    simp only [List.mem_append] at hm
    rcases hm with (hm | hm) | hm
    · exact Or.inl (mem_condMsg hm)
    · exact Or.inr (Or.inl (mem_condMsg hm))
    · have : m = "Invalid network.presharedKey (must be 64 hex characters)" := by
        unfold pskCheck at he3
        split at he3
        · obtain ⟨psk, _, he3⟩ := except_bind_ok he3
          simp only [pure, Except.pure, Except.ok.injEq] at he3
          subst he3
          exact mem_condMsg hm
        · simp only [pure, Except.pure, Except.ok.injEq] at he3
          subst he3
          simp at hm
      exact Or.inr (Or.inr this)
  · simp only [pure, Except.pure, Except.ok.injEq] at h
    subst h
    intro m hm
    simp at hm

/-- The RPC checks can only emit their own two messages. -/
theorem rpcChecks_sub (c : CVal) (l : List String) (h : rpcChecks c = .ok l) :
    ∀ m ∈ l, m = "Invalid network.rpcAddress" ∨ m = "Invalid network.rpcPort" := by
  unfold rpcChecks at h
  obtain ⟨e1, he1, h⟩ := except_bind_ok h
  obtain ⟨e2, he2, h⟩ := except_bind_ok h
  simp only [pure, Except.pure, Except.ok.injEq] at h
  subst h
  intro m hm
  simp only [List.mem_append] at hm
  rcases hm with hm | hm
  · left
    unfold rpcAddrCheck at he1
    split at he1
    · obtain ⟨a, _, he1⟩ := except_bind_ok he1
      obtain ⟨ok, _, he1⟩ := except_bind_ok he1
      simp only [pure, Except.pure, Except.ok.injEq] at he1
      subst he1
      exact mem_condMsg hm
    · simp only [pure, Except.pure, Except.ok.injEq] at he1
      subst he1
      simp at hm
  · right
    unfold rpcPortCheck at he2
    split at he2
    · obtain ⟨p, _, he2⟩ := except_bind_ok he2
      simp only [pure, Except.pure, Except.ok.injEq] at he2
      subst he2
      exact mem_condMsg hm
    · simp only [pure, Except.pure, Except.ok.injEq] at he2
      subst he2
      simp at hm

/-- The REST checks can only emit their own two messages. -/
theorem restChecks_sub (c : CVal) (l : List String) (h : restChecks c = .ok l) :
    ∀ m ∈ l, m = "Invalid network.restAddress" ∨ m = "Invalid network.restPort" := by
  unfold restChecks at h
  split at h
  · obtain ⟨addr, _, h⟩ := except_bind_ok h
    obtain ⟨addrOk, _, h⟩ := except_bind_ok h
    obtain ⟨port, _, h⟩ := except_bind_ok h
    simp only [pure, Except.pure, Except.ok.injEq] at h
    subst h
    intro m hm
    simp only [List.mem_append] at hm
    rcases hm with hm | hm
    · exact Or.inl (mem_condMsg hm)
    · exact Or.inr (mem_condMsg hm)
  · simp only [pure, Except.pure, Except.ok.injEq] at h
    subst h
    intro m hm
    simp at hm

/-- The identity check can only emit its own message. -/
theorem identityChecks_sub (c : CVal) (l : List String) (h : identityChecks c = .ok l) :
    ∀ m ∈ l, m = "Invalid system.identity" := by
  unfold identityChecks at h
  obtain ⟨idv, _, h⟩ := except_bind_ok h
  simp only [pure, Except.pure, Except.ok.injEq] at h
  subst h
  intro m hm
  exact mem_condMsg hm

/-- The CW check can only emit its own message. -/
theorem cwChecks_sub (c : CVal) (l : List String) (h : cwChecks c = .ok l) :
    ∀ m ∈ l, m = "Invalid system.cwId.callsign" := by
  unfold cwChecks at h
  split at h
  · obtain ⟨cs, _, h⟩ := except_bind_ok h
    simp only [pure, Except.pure, Except.ok.injEq] at h
    subst h
    intro m hm
    exact mem_condMsg hm
  · simp only [pure, Except.pure, Except.ok.injEq] at h
    subst h
    intro m hm
    simp at hm

/-- The modem checks can only emit their own two messages. -/
theorem modemChecks_sub (c : CVal) (l : List String) (h : modemChecks c = .ok l) :
    ∀ m ∈ l, m = "Invalid system.modem.rxLevel (must be 0-100)" ∨
      m = "Invalid system.modem.txLevel (must be 0-100)" := by
  unfold modemChecks at h
  obtain ⟨rx, _, h⟩ := except_bind_ok h
  obtain ⟨tx, _, h⟩ := except_bind_ok h
  simp only [pure, Except.pure, Except.ok.injEq] at h
  subst h
  intro m hm
  simp only [List.mem_append] at hm
  rcases hm with hm | hm
  · exact Or.inl (mem_condMsg hm)
  · exact Or.inr (mem_condMsg hm)

/-- The LLA key check can only emit its own message. -/
theorem llaChecks_sub (c : CVal) (l : List String) (h : llaChecks c = .ok l) :
    ∀ m ∈ l, m = "Invalid system.config.secure.key (must be 32 hex characters)" := by
  unfold llaChecks at h
  split at h
  · obtain ⟨key, _, h⟩ := except_bind_ok h
    simp only [pure, Except.pure, Except.ok.injEq] at h
    subst h
    intro m hm
    exact mem_condMsg hm
  · simp only [pure, Except.pure, Except.ok.injEq] at h
    subst h
    intro m hm
    simp at hm

/-- Decomposition of the color code / NAC / RAN checks when the stored NAC
is an integer `v`: the middle block is exactly the NAC range check on `v`. -/
theorem codeChecks_decomp (c : CVal) (v : Int) (l : List String)
    (hv : cget c "system.config.nac" = some (.vint v))
    (h : codeChecks c = .ok l) :
    ∃ ccv rv : Int,
      l = (if ¬ validate_range ccv 0 15 then
            ["Invalid system.config.colorCode (must be 0-15)"] else []) ++
          (if ¬ validate_range v 0 4095 then
            ["Invalid system.config.nac (must be 0-4095)"] else []) ++
          (if ¬ validate_range rv 0 63 then
            ["Invalid system.config.ran (must be 0-63)"] else []) := by
  unfold codeChecks at h
  obtain ⟨ccv, hcc, h⟩ := except_bind_ok h
  obtain ⟨nv, hnv, h⟩ := except_bind_ok h
  obtain ⟨rv, hrv, h⟩ := except_bind_ok h
  simp only [pure, Except.pure, Except.ok.injEq] at h
  subst h
  have hnac : v = nv := by
    unfold cgetD at hnv
    rw [hv] at hnv
    simp only [Option.getD_some] at hnv
    simpa [asStr, asInt] using hnv
  subst hnac
  exact ⟨ccv, rv, by norm_num⟩

/-! ## Claim C10: NAC range validation in `DVMConfig.validate` -/

/-- Claim C10: `DVMConfig.validate` reports its NAC error exactly when the
stored `system.config.nac` integer lies outside 0..4095; consequently every
NAC in 3968..4095 — rejected by `validate_p25_nac`, whose maximum is 0xF7F =
3967 — passes the per-instance range validation used by `validate_system`. -/
theorem C10_nac_validation (c : CVal) (v : Int) (errs : List String)
    (hv : cget c "system.config.nac" = some (.vint v))
    (hval : validate c = .ok errs) :
    ("Invalid system.config.nac (must be 0-4095)" ∈ errs ↔ ¬ (0 ≤ v ∧ v ≤ 4095)) ∧
    (3968 ≤ v → v ≤ 4095 →
      ((validate_p25_nac v).1 = false ∧
        "Invalid system.config.nac (must be 0-4095)" ∉ errs)) := by
  unfold validate at hval
  obtain ⟨e1, he1, hval⟩ := except_bind_ok hval
  obtain ⟨e2, he2, hval⟩ := except_bind_ok hval
  obtain ⟨e3, he3, hval⟩ := except_bind_ok hval
  obtain ⟨e4, he4, hval⟩ := except_bind_ok hval
  obtain ⟨e5, he5, hval⟩ := except_bind_ok hval
  obtain ⟨e6, he6, hval⟩ := except_bind_ok hval
  obtain ⟨e7, he7, hval⟩ := except_bind_ok hval
  obtain ⟨e8, he8, hval⟩ := except_bind_ok hval
  simp only [pure, Except.pure, Except.ok.injEq] at hval
  subst hval
  obtain ⟨ccv, rv, he5d⟩ := codeChecks_decomp c v e5 hv he5
  subst he5d
  have hnacmsg : ("Invalid system.config.nac (must be 0-4095)" ∈
      e1 ++ e2 ++ e3 ++ e4 ++
        ((if ¬ validate_range ccv 0 15 then
            ["Invalid system.config.colorCode (must be 0-15)"] else []) ++
          (if ¬ validate_range v 0 4095 then
            ["Invalid system.config.nac (must be 0-4095)"] else []) ++
          (if ¬ validate_range rv 0 63 then
            ["Invalid system.config.ran (must be 0-63)"] else [])) ++ e6 ++ e7 ++ e8) ↔
      ¬ validate_range v 0 4095 := by
    constructor
    · intro hm
      simp only [List.mem_append] at hm
      rcases hm with ((((((hm | hm) | hm) | hm) | (hm | hm) | hm) | hm) | hm) | hm
      · rcases networkChecks_sub c e1 he1 _ hm with hq | hq | hq <;> simp at hq
      · rcases rpcChecks_sub c e2 he2 _ hm with hq | hq <;> simp at hq
      · rcases restChecks_sub c e3 he3 _ hm with hq | hq <;> simp at hq
      · have hq := identityChecks_sub c e4 he4 _ hm
        simp at hq
      · have hq := mem_condMsg hm
        simp at hq
      · split at hm
        · assumption
        · simp at hm
      · have hq := mem_condMsg hm
        simp at hq
      · have hq := cwChecks_sub c e6 he6 _ hm
        simp at hq
      · rcases modemChecks_sub c e7 he7 _ hm with hq | hq <;> simp at hq
      · have hq := llaChecks_sub c e8 he8 _ hm
        simp at hq
    · intro hr
      simp only [List.mem_append]
      left; left; left; right; left; right
      rw [if_pos hr]
      simp
  constructor
  · rw [hnacmsg]
    unfold validate_range
    simp
  · intro h1 h2
    constructor
    · unfold validate_p25_nac
      rw [if_pos (by omega)]
    · rw [hnacmsg]
      unfold validate_range
      simp only [not_not, decide_eq_true_eq]
      omega

/-- A tiny concrete configuration storing NAC 4000 (inside 0..4095 but above
the `validate_p25_nac` maximum 3967). -/
def c10cfg : CVal :=
  .vdict [("system", .vdict [("identity", .vstr "TEST"),
    ("config", .vdict [("nac", .vint 4000)])])]

/-- Witness for claim C10 at NAC 4000 on `c10cfg`. -/
theorem C10_nac_validation_witness :
    cget c10cfg "system.config.nac" = some (.vint 4000) ∧
    validate c10cfg = .ok [] ∧
    (("Invalid system.config.nac (must be 0-4095)" ∈ ([] : List String) ↔
        ¬ ((0 : Int) ≤ 4000 ∧ (4000 : Int) ≤ 4095)) ∧
      ((3968 : Int) ≤ 4000 → (4000 : Int) ≤ 4095 →
        ((validate_p25_nac 4000).1 = false ∧
          "Invalid system.config.nac (must be 0-4095)" ∉ ([] : List String)))) :=
  ⟨by rfl, by rfl, C10_nac_validation c10cfg 4000 [] (by rfl) (by rfl)⟩

/-! ## Claim C3: band presets -/

/-- Truncation of a product that is an integer. -/
theorem pyTrunc_of_eq_intCast {q : ℚ} {n : Int} (h : q = (n : ℚ)) : pyTrunc q = n := by
  rw [h, pyTrunc_intCast]

/-- In-window channel computation with positive truncated spacing is floor
division (shared helper). -/
theorem calc_ok_of_pos (e : IdenEntry) (tx : Int) (h1 : e.base_freq ≤ tx)
    (h2 : tx ≤ e.base_freq + 30000000) (h3 : 0 < pyTrunc (e.spacing * 1000)) :
    e.calculate_channel_number tx = .ok ((tx - e.base_freq) / pyTrunc (e.spacing * 1000)) := by
  unfold IdenEntry.calculate_channel_number
  rw [if_neg (by omega), if_neg (by unfold MAX_FREQ_GAP; omega), if_neg (by omega)]
  rw [pyTrunc_div_eq_ediv _ _ (by omega) h3]

/-- A nonnegative RX result is accepted (shared helper). -/
theorem rx_ok_of_nonneg (e : IdenEntry) (tx : Int)
    (h : 0 ≤ tx + pyTrunc (e.input_offset * 1000000)) :
    e.calculate_rx_frequency tx = .ok (tx + pyTrunc (e.input_offset * 1000000)) := by
  dsimp only [IdenEntry.calculate_rx_frequency]
  rw [if_neg (by omega)]

/-- The statement of claim C3: for every built-in preset and every TX
frequency (in Hz) within the preset's declared TX range, channel-number
computation on an entry built from the preset never fails, yields a
nonnegative channel, is monotone in the TX frequency, and the RX computation
never fails. -/
def C3Claim : Prop :=
  ∀ p ∈ BAND_PRESETS, ∀ e, create_iden_entry_from_preset 0 p.1 = .ok e →
  ∀ tx tx' : Int,
  p.2.tx_lo * 1000000 ≤ (tx : ℚ) → (tx : ℚ) ≤ p.2.tx_hi * 1000000 →
  p.2.tx_lo * 1000000 ≤ (tx' : ℚ) → (tx' : ℚ) ≤ p.2.tx_hi * 1000000 →
  (∃ ch, e.calculate_channel_number tx = .ok ch ∧ 0 ≤ ch) ∧
  (∃ r, e.calculate_rx_frequency tx = .ok r) ∧
  (tx ≤ tx' → ∀ ch ch', e.calculate_channel_number tx = .ok ch →
    e.calculate_channel_number tx' = .ok ch' → ch ≤ ch')

/-- Claim C3 as stated is false: the `800mhz` preset declares a TX range
starting at 851.0 MHz but its base frequency is 851,006,250 Hz, so the
in-range frequency 851,000,000 Hz is below base and the channel computation
raises. -/
theorem C3_counterexample : ¬ C3Claim := by
  intro h
  have hp : ("800mhz",
      (⟨851006250, 6.25, -45.0, 12.5, 851.0, 870.0, 806.0, 825.0⟩ : BandPreset)) ∈
      BAND_PRESETS := by
    unfold BAND_PRESETS
    exact List.mem_cons_self _ _
  have hc := h _ hp ⟨0, 851006250, 6.25, -45.0, 12.5⟩ rfl 851000000 851000000
    (by norm_num) (by norm_num) (by norm_num) (by norm_num)
  rcases hc.1 with ⟨ch, hch, _⟩
  have hfail : IdenEntry.calculate_channel_number ⟨0, 851006250, 6.25, -45.0, 12.5⟩
      851000000 = .error .freqBelowBase := by
    dsimp only [IdenEntry.calculate_channel_number]
    rw [if_pos (by decide)]
  rw [hfail] at hch
  exact absurd hch (by simp)

/-- Per-preset workhorse for the corrected claim C3: all six presets share
spacing 6.25 kHz, so the truncated spacing is 6250 Hz and the channel number
is `(tx - base) / 6250`. -/
theorem preset_case (base : Int) (off bw : ℚ) (offInt : Int) (tx tx' : Int)
    (hoff : off * 1000000 = (offInt : ℚ))
    (hwin : tx ≤ base + 30000000) (hwin' : tx' ≤ base + 30000000)
    (hb : base ≤ tx) (hb' : base ≤ tx') (hrx : 0 ≤ tx + offInt) :
    (∃ ch, IdenEntry.calculate_channel_number ⟨0, base, 6.25, off, bw⟩ tx = .ok ch ∧ 0 ≤ ch) ∧
    (∃ r, IdenEntry.calculate_rx_frequency ⟨0, base, 6.25, off, bw⟩ tx = .ok r) ∧
    (tx ≤ tx' → ∀ ch ch',
      IdenEntry.calculate_channel_number ⟨0, base, 6.25, off, bw⟩ tx = .ok ch →
      IdenEntry.calculate_channel_number ⟨0, base, 6.25, off, bw⟩ tx' = .ok ch' → ch ≤ ch') := by
  have hsp : pyTrunc ((6.25 : ℚ) * 1000) = 6250 :=
    pyTrunc_of_eq_intCast (by norm_num)
  have hspE : pyTrunc ((⟨0, base, 6.25, off, bw⟩ : IdenEntry).spacing * 1000) = 6250 := hsp
  have hcalc := calc_ok_of_pos ⟨0, base, 6.25, off, bw⟩ tx (by dsimp only; omega)
    (by dsimp only; omega) (by rw [hspE]; omega)
  have hcalc' := calc_ok_of_pos ⟨0, base, 6.25, off, bw⟩ tx' (by dsimp only; omega)
    (by dsimp only; omega) (by rw [hspE]; omega)
  rw [hspE] at hcalc hcalc'
  dsimp only at hcalc hcalc'
  refine ⟨⟨(tx - base) / 6250, hcalc, Int.ediv_nonneg (by omega) (by norm_num)⟩, ?_, ?_⟩
  · refine ⟨tx + offInt, ?_⟩
    have hoffE : pyTrunc ((⟨0, base, 6.25, off, bw⟩ : IdenEntry).input_offset * 1000000)
        = offInt := pyTrunc_of_eq_intCast hoff
    have := rx_ok_of_nonneg ⟨0, base, 6.25, off, bw⟩ tx (by rw [hoffE]; omega)
    rw [hoffE] at this
    exact this
  · intro hle ch ch' hch hch'
    rw [hcalc] at hch
    rw [hcalc'] at hch'
    simp only [Except.ok.injEq] at hch hch'
    subst hch
    subst hch'
    exact Int.ediv_le_ediv (by norm_num) (by omega)

/-- Claim C3 corrected: the guarantee holds for TX frequencies within a
preset's declared TX range that are also at or above the preset's base
frequency; the `800mhz` and `900mhz` presets declare TX ranges whose bottom
6250 Hz and 1250 Hz slivers lie below base, where the computation raises
instead. -/
theorem C3_amended :
    ∀ p ∈ BAND_PRESETS, ∀ e, create_iden_entry_from_preset 0 p.1 = .ok e →
    ∀ tx tx' : Int,
    p.2.tx_lo * 1000000 ≤ (tx : ℚ) → (tx : ℚ) ≤ p.2.tx_hi * 1000000 →
    p.2.tx_lo * 1000000 ≤ (tx' : ℚ) → (tx' : ℚ) ≤ p.2.tx_hi * 1000000 →
    p.2.base_freq ≤ tx → p.2.base_freq ≤ tx' →
    (∃ ch, e.calculate_channel_number tx = .ok ch ∧ 0 ≤ ch) ∧
    (∃ r, e.calculate_rx_frequency tx = .ok r) ∧
    (tx ≤ tx' → ∀ ch ch', e.calculate_channel_number tx = .ok ch →
      e.calculate_channel_number tx' = .ok ch' → ch ≤ ch') := by
  intro p hp e he tx tx' hlo hhi hlo' hhi' hb hb'
  have hmem : p = ("800mhz",
        (⟨851006250, 6.25, -45.0, 12.5, 851.0, 870.0, 806.0, 825.0⟩ : BandPreset)) ∨
      p = ("900mhz", (⟨935001250, 6.25, -39.0, 12.5, 935.0, 960.0, 896.0, 901.0⟩ : BandPreset)) ∨
      p = ("uhf", (⟨450000000, 6.25, 5.0, 12.5, 450.0, 470.0, 455.0, 475.0⟩ : BandPreset)) ∨
      p = ("vhf", (⟨146000000, 6.25, 0.6, 12.5, 146.0, 148.0, 146.6, 148.6⟩ : BandPreset)) ∨
      p = ("vhf-hi", (⟨150000000, 6.25, 0.6, 12.5, 150.0, 174.0, 155.0, 179.0⟩ : BandPreset)) ∨
      p = ("uhf-ham", (⟨430000000, 6.25, 5.0, 12.5, 430.0, 450.0, 435.0, 455.0⟩ : BandPreset)) := by
    simpa [BAND_PRESETS] using hp
  rcases hmem with h6 | h6 | h6 | h6 | h6 | h6
  · subst h6
    dsimp only at hlo hhi hlo' hhi' hb hb'
    have he2 : (Except.ok (⟨0, 851006250, 6.25, -45.0, 12.5⟩ : IdenEntry) :
        Except CalcErr IdenEntry) = .ok e := he
    obtain rfl : (⟨0, 851006250, 6.25, -45.0, 12.5⟩ : IdenEntry) = e := Except.ok.inj he2
    have htx : tx ≤ 870000000 := by
      have hq : (tx : ℚ) ≤ 870000000 := le_trans hhi (by norm_num)
      exact_mod_cast hq
    have htx' : tx' ≤ 870000000 := by
      have hq : (tx' : ℚ) ≤ 870000000 := le_trans hhi' (by norm_num)
      exact_mod_cast hq
    exact preset_case 851006250 (-45.0) 12.5 (-45000000) tx tx'
      (by norm_num) (by omega) (by omega) hb hb' (by omega)
  · subst h6
    dsimp only at hlo hhi hlo' hhi' hb hb'
    have he2 : (Except.ok (⟨0, 935001250, 6.25, -39.0, 12.5⟩ : IdenEntry) :
        Except CalcErr IdenEntry) = .ok e := he
    obtain rfl : (⟨0, 935001250, 6.25, -39.0, 12.5⟩ : IdenEntry) = e := Except.ok.inj he2
    have htx : tx ≤ 960000000 := by
      have hq : (tx : ℚ) ≤ 960000000 := le_trans hhi (by norm_num)
      exact_mod_cast hq
    have htx' : tx' ≤ 960000000 := by
      have hq : (tx' : ℚ) ≤ 960000000 := le_trans hhi' (by norm_num)
      exact_mod_cast hq
    exact preset_case 935001250 (-39.0) 12.5 (-39000000) tx tx'
      (by norm_num) (by omega) (by omega) hb hb' (by omega)
  · subst h6
    dsimp only at hlo hhi hlo' hhi' hb hb'
    have he2 : (Except.ok (⟨0, 450000000, 6.25, 5.0, 12.5⟩ : IdenEntry) :
        Except CalcErr IdenEntry) = .ok e := he
    obtain rfl : (⟨0, 450000000, 6.25, 5.0, 12.5⟩ : IdenEntry) = e := Except.ok.inj he2
    have htx : tx ≤ 470000000 := by
      have hq : (tx : ℚ) ≤ 470000000 := le_trans hhi (by norm_num)
      exact_mod_cast hq
    have htx' : tx' ≤ 470000000 := by
      have hq : (tx' : ℚ) ≤ 470000000 := le_trans hhi' (by norm_num)
      exact_mod_cast hq
    exact preset_case 450000000 (5.0) 12.5 5000000 tx tx'
      (by norm_num) (by omega) (by omega) hb hb' (by omega)
  · subst h6
    dsimp only at hlo hhi hlo' hhi' hb hb'
    have he2 : (Except.ok (⟨0, 146000000, 6.25, 0.6, 12.5⟩ : IdenEntry) :
        Except CalcErr IdenEntry) = .ok e := he
    obtain rfl : (⟨0, 146000000, 6.25, 0.6, 12.5⟩ : IdenEntry) = e := Except.ok.inj he2
    have htx : tx ≤ 148000000 := by
      have hq : (tx : ℚ) ≤ 148000000 := le_trans hhi (by norm_num)
      exact_mod_cast hq
    have htx' : tx' ≤ 148000000 := by
      have hq : (tx' : ℚ) ≤ 148000000 := le_trans hhi' (by norm_num)
      exact_mod_cast hq
    exact preset_case 146000000 (0.6) 12.5 600000 tx tx'
      (by norm_num) (by omega) (by omega) hb hb' (by omega)
  · subst h6
    dsimp only at hlo hhi hlo' hhi' hb hb'
    have he2 : (Except.ok (⟨0, 150000000, 6.25, 0.6, 12.5⟩ : IdenEntry) :
        Except CalcErr IdenEntry) = .ok e := he
    obtain rfl : (⟨0, 150000000, 6.25, 0.6, 12.5⟩ : IdenEntry) = e := Except.ok.inj he2
    have htx : tx ≤ 174000000 := by
      have hq : (tx : ℚ) ≤ 174000000 := le_trans hhi (by norm_num)
      exact_mod_cast hq
    have htx' : tx' ≤ 174000000 := by
      have hq : (tx' : ℚ) ≤ 174000000 := le_trans hhi' (by norm_num)
      exact_mod_cast hq
    exact preset_case 150000000 (0.6) 12.5 600000 tx tx'
      (by norm_num) (by omega) (by omega) hb hb' (by omega)
  · subst h6
    dsimp only at hlo hhi hlo' hhi' hb hb'
    have he2 : (Except.ok (⟨0, 430000000, 6.25, 5.0, 12.5⟩ : IdenEntry) :
        Except CalcErr IdenEntry) = .ok e := he
    obtain rfl : (⟨0, 430000000, 6.25, 5.0, 12.5⟩ : IdenEntry) = e := Except.ok.inj he2
    have htx : tx ≤ 450000000 := by
      have hq : (tx : ℚ) ≤ 450000000 := le_trans hhi (by norm_num)
      exact_mod_cast hq
    have htx' : tx' ≤ 450000000 := by
      have hq : (tx' : ℚ) ≤ 450000000 := le_trans hhi' (by norm_num)
      exact_mod_cast hq
    exact preset_case 430000000 (5.0) 12.5 5000000 tx tx'
      (by norm_num) (by omega) (by omega) hb hb' (by omega)

/-- Witness for the corrected claim C3 on the `vhf` preset at 146.0125 MHz
and 146.025 MHz: all hypotheses hold and channel numbers are produced. -/
theorem C3_amended_witness :
    (∃ ch, IdenEntry.calculate_channel_number ⟨0, 146000000, 6.25, 0.6, 12.5⟩ 146012500 =
      .ok ch ∧ 0 ≤ ch) ∧
    (∃ r, IdenEntry.calculate_rx_frequency ⟨0, 146000000, 6.25, 0.6, 12.5⟩ 146012500 =
      .ok r) ∧
    ((146012500 : Int) ≤ 146025000 → ∀ ch ch',
      IdenEntry.calculate_channel_number ⟨0, 146000000, 6.25, 0.6, 12.5⟩ 146012500 = .ok ch →
      IdenEntry.calculate_channel_number ⟨0, 146000000, 6.25, 0.6, 12.5⟩ 146025000 = .ok ch' →
      ch ≤ ch') := by
  have hp : ("vhf", (⟨146000000, 6.25, 0.6, 12.5, 146.0, 148.0, 146.6, 148.6⟩ : BandPreset)) ∈
      BAND_PRESETS := by
    unfold BAND_PRESETS
    simp
  exact C3_amended _ hp ⟨0, 146000000, 6.25, 0.6, 12.5⟩ rfl 146012500 146025000
    (by norm_num) (by norm_num) (by norm_num) (by norm_num) (by norm_num) (by norm_num)


/-! ## Claim C9: peer id / port sequencing at validation time -/

/-- The file store produced by `create_system` with its all-default
parameters (system `trunked`, base peer id 100000, two voice channels). -/
def c9store : Store :=
  match create_system defaultParams [] with
  | .ok (_, _, s) => s
  | .error _ => []

/-- The control instance reloaded from that store by `load_system`. -/
def c9cc : CVal :=
  match load_system c9store "trunked" with
  | .ok (cc, _) => cc
  | .error _ => .vint 0

/-- The voice instances reloaded from that store by `load_system`. -/
def c9vcs : List CVal :=
  match load_system c9store "trunked" with
  | .ok (_, vcs) => vcs
  | .error _ => []

/-- Overwrite one key of the first list element (the post-load edit of a
single voice instance; a failing `cset` leaves the instance unchanged). -/
def mutateFirst (vcs : List CVal) (key : String) (v : CVal) : List CVal :=
  match vcs with
  | v1 :: rest =>
    (match cset v1 key v with
     | .ok c => c
     | .error _ => v1) :: rest
  | [] => []

/-- Counterexample to claim C9: the freshly created and reloaded default
system has peer ids 100000, 100001, 100002 (base, base+1, base+2 in
control-then-voice order) and RPC ports 9890, 9891, 9892; replacing the first
voice instance's peer id by 999999, or its RPC port by 9898, breaks the
base/offset sequencing, yet `validate_system` still reports no error at all:
the sequencing invariant is not enforced at validation time. -/
theorem C9_counterexample :
    cget c9cc "network.id" = some (.vint 100000) ∧
    c9vcs.map (fun v => cget v "network.id") =
      [some (.vint 100001), some (.vint 100002)] ∧
    (mutateFirst c9vcs "network.id" (.vint 999999)).map (fun v => cget v "network.id") =
      [some (.vint 999999), some (.vint 100002)] ∧
    validate_system c9cc (mutateFirst c9vcs "network.id" (.vint 999999)) = .ok [] ∧
    cget c9cc "network.rpcPort" = some (.vint 9890) ∧
    c9vcs.map (fun v => cget v "network.rpcPort") =
      [some (.vint 9891), some (.vint 9892)] ∧
    validate_system c9cc (mutateFirst c9vcs "network.rpcPort" (.vint 9898)) = .ok [] :=
  ⟨by rfl, by rfl, by rfl, by rfl, by rfl, by rfl, by rfl⟩

/-- Amended claim C9: `validate_system` enforces no peer-id sequencing at
all — whatever integer is written into a voice instance's `network.id`, the
reloaded default system still validates with no error, because neither the
per-instance `DVMConfig.validate` nor `_check_consistency` ever reads
`network.id` (the consistency check compares only NAC, color code, site id,
network id fields of `system.config`, system/RFSS ids, RAN, and the FNE
address and port). -/
theorem C9_amended (w : Int) :
    validate_system c9cc (mutateFirst c9vcs "network.id" (.vint w)) = .ok [] := by
  rfl

/-! ## Claim C1: fresh trunked systems, validation and NAC mutation -/

/-- The first loaded voice instance of the default system. -/
def vc01 : CVal := c9vcs.getD 0 (.vint 0)

/-- The second loaded voice instance of the default system. -/
def vc02 : CVal := c9vcs.getD 1 (.vint 0)

/-- Overwrite an instance's `system.config.nac` (a failing `cset` leaves the
instance unchanged; on these documents it always succeeds). -/
def setNac (c : CVal) (v : Int) : CVal :=
  match cset c "system.config.nac" (.vint v) with
  | .ok c2 => c2
  | .error _ => c

/-- The NAC range-error block of `DVMConfig.validate` as a function of the
stored value. -/
def nacIf (v : Int) : List String :=
  if ¬ validate_range v 0 4095 then ["Invalid system.config.nac (must be 0-4095)"] else []

/-- Reduction of a successful `Except` bind. -/
theorem ok_bind {α β : Type} (a : α) (f : α → Except String β) :
    (Except.ok a >>= f) = f a := rfl

/-- One step of the voice-channel validation loop, given the component
results. -/
theorem collectVcErrs_cons (i : Nat) (vc : CVal) (rest : List CVal)
    (errs : List String) (others : List (String × List String))
    (h1 : validate vc = .ok errs) (h2 : collectVcErrs (i + 1) rest = .ok others) :
    collectVcErrs i (vc :: rest) =
      .ok ((if errs ≠ [] then [("voice_channel_" ++ String.mk (natChars i), errs)] else [])
        ++ others) := by
  unfold collectVcErrs
  rw [h1]
  simp only [ok_bind]
  rw [h2]
  simp only [ok_bind, pure, Except.pure]

/-- `validate_system` in terms of its three component results. -/
theorem validate_system_eq (cc : CVal) (vcs : List CVal) (ccErrs : List String)
    (e2 : List (String × List String))
    (h1 : validate cc = .ok ccErrs) (h2 : collectVcErrs 1 vcs = .ok e2) :
    validate_system cc vcs =
      .ok ((if ccErrs ≠ [] then [("control_channel", ccErrs)] else []) ++ e2 ++
        (if check_consistency (some cc) vcs ≠ [] then
          [("consistency", check_consistency (some cc) vcs)] else [])) := by
  unfold validate_system
  rw [h1]
  simp only [ok_bind]
  rw [h2]
  simp only [ok_bind, pure, Except.pure]

set_option maxHeartbeats 2000000 in
/-- Validating the first voice instance after a NAC overwrite yields exactly
the NAC range block. -/
theorem validate_setNac_vc01 (v : Int) :
    validate (setNac vc01 v) = .ok (nacIf v) := by
  have h : validate (setNac vc01 v) = .ok ((((nacIf v ++ []) ++ []) ++ []) ++ []) := by rfl
  simpa using h

set_option maxHeartbeats 2000000 in
/-- Validating the second voice instance after a NAC overwrite yields exactly
the NAC range block. -/
theorem validate_setNac_vc02 (v : Int) :
    validate (setNac vc02 v) = .ok (nacIf v) := by
  have h : validate (setNac vc02 v) = .ok ((((nacIf v ++ []) ++ []) ++ []) ++ []) := by rfl
  simpa using h

/-- An in-range NAC produces no range error. -/
theorem nacIf_in_range (v : Int) (h0 : 0 ≤ v) (h1 : v ≤ 4095) : nacIf v = [] := by
  unfold nacIf validate_range
  rw [if_neg]
  simp only [not_not, decide_eq_true_eq]
  exact ⟨h0, h1⟩

set_option maxHeartbeats 2000000 in
/-- The consistency comparisons against a first voice instance whose NAC was
moved off the control value. -/
theorem vcCons_mut1 (v : Int) (hne : v ≠ 659) :
    vcConsistency c9cc 1 (setNac vc01 v) = ["VC01: NAC mismatch (expected 659)"] := by
  have harg1 : cget c9cc "system.config.nac" = some (.vint 659) := by rfl
  have harg2 : cget (setNac vc01 v) "system.config.nac" = some (.vint v) := by rfl
  have hbeq : ((v == 659) : Bool) = false := by simpa using hne
  have hfm : ∀ tag : String, fieldMismatch tag "NAC" (some (.vint 659)) (some (.vint v)) =
      [tag ++ "NAC" ++ " mismatch (expected " ++ "659" ++ ")"] := by
    intro tag
    unfold fieldMismatch
    rw [if_pos]
    · rfl
    · refine ⟨by simp [pyIsNone], ?_⟩
      simp [optCvalEq, cvalEq, hbeq]
  simp only [vcConsistency]
  rw [harg1, harg2, hfm]
  rfl

set_option maxHeartbeats 2000000 in
/-- The consistency comparisons against a second voice instance whose NAC was
moved off the control value. -/
theorem vcCons_mut2 (v : Int) (hne : v ≠ 659) :
    vcConsistency c9cc 2 (setNac vc02 v) = ["VC02: NAC mismatch (expected 659)"] := by
  have harg1 : cget c9cc "system.config.nac" = some (.vint 659) := by rfl
  have harg2 : cget (setNac vc02 v) "system.config.nac" = some (.vint v) := by rfl
  have hbeq : ((v == 659) : Bool) = false := by simpa using hne
  have hfm : ∀ tag : String, fieldMismatch tag "NAC" (some (.vint 659)) (some (.vint v)) =
      [tag ++ "NAC" ++ " mismatch (expected " ++ "659" ++ ")"] := by
    intro tag
    unfold fieldMismatch
    rw [if_pos]
    · rfl
    · refine ⟨by simp [pyIsNone], ?_⟩
      simp [optCvalEq, cvalEq, hbeq]
  simp only [vcConsistency]
  rw [harg1, harg2, hfm]
  rfl

set_option maxHeartbeats 4000000 in
/-- Amended claim C1: the default freshly created and reloaded trunked system
validates with no error at all; overwriting either voice instance's
`system.config.nac` with any in-range value different from the control NAC
0x293 = 659 makes `validate_system` report exactly one entry, the consistency
entry whose single message names that voice instance's ordinal and the NAC
field in the `{field} mismatch (expected {controlValue})` form.  (The
restriction to build parameters and mutated values inside 0..4095 is
necessary: an out-of-range NAC adds per-instance range errors.) -/
theorem C1_amended (v : Int) (h0 : 0 ≤ v) (h1 : v ≤ 4095) (hne : v ≠ 659) :
    c9vcs = [vc01, vc02] ∧
    cget c9cc "system.config.nac" = some (.vint 659) ∧
    validate_system c9cc c9vcs = .ok [] ∧
    validate_system c9cc [setNac vc01 v, vc02] =
      .ok [("consistency", ["VC01: NAC mismatch (expected 659)"])] ∧
    validate_system c9cc [vc01, setNac vc02 v] =
      .ok [("consistency", ["VC02: NAC mismatch (expected 659)"])] := by
  refine ⟨by rfl, by rfl, by rfl, ?_, ?_⟩
  · have hcol : collectVcErrs 1 [setNac vc01 v, vc02] = .ok [] := by
      have h2 : collectVcErrs 2 [vc02] = .ok [] := by rfl
      have hc := collectVcErrs_cons 1 (setNac vc01 v) [vc02] (nacIf v) []
        (validate_setNac_vc01 v) h2
      rw [nacIf_in_range v h0 h1] at hc
      simpa using hc
    have hcons : check_consistency (some c9cc) [setNac vc01 v, vc02] =
        ["VC01: NAC mismatch (expected 659)"] := by
      have hsh : check_consistency (some c9cc) [setNac vc01 v, vc02] =
          vcConsistency c9cc 1 (setNac vc01 v) ++ consistencyAux c9cc 2 [vc02] := by rfl
      rw [hsh, vcCons_mut1 v hne]
      rfl
    have h := validate_system_eq c9cc [setNac vc01 v, vc02] [] []
      (by rfl) hcol
    rw [hcons] at h
    simpa using h
  · have hcol : collectVcErrs 1 [vc01, setNac vc02 v] = .ok [] := by
      have h2 : collectVcErrs 2 [setNac vc02 v] = .ok [] := by
        have h3 : collectVcErrs 3 [] = .ok [] := by rfl
        have hc := collectVcErrs_cons 2 (setNac vc02 v) [] (nacIf v) []
          (validate_setNac_vc02 v) h3
        rw [nacIf_in_range v h0 h1] at hc
        simpa using hc
      have hc := collectVcErrs_cons 1 vc01 [setNac vc02 v] [] [] (by rfl) h2
      simpa using hc
    have hcons : check_consistency (some c9cc) [vc01, setNac vc02 v] =
        ["VC02: NAC mismatch (expected 659)"] := by
      have hsh : check_consistency (some c9cc) [vc01, setNac vc02 v] =
          vcConsistency c9cc 1 vc01 ++
            (vcConsistency c9cc 2 (setNac vc02 v) ++ consistencyAux c9cc 3 []) := by rfl
      rw [hsh, vcCons_mut2 v hne]
      rfl
    have h := validate_system_eq c9cc [vc01, setNac vc02 v] [] []
      (by rfl) hcol
    rw [hcons] at h
    simpa using h

/-- Witness for the amended claim C1 at the in-range divergent NAC 100. -/
theorem C1_amended_witness :
    (0 : Int) ≤ 100 ∧ (100 : Int) ≤ 4095 ∧ (100 : Int) ≠ 659 ∧
    (c9vcs = [vc01, vc02] ∧
     cget c9cc "system.config.nac" = some (.vint 659) ∧
     validate_system c9cc c9vcs = .ok [] ∧
     validate_system c9cc [setNac vc01 100, vc02] =
       .ok [("consistency", ["VC01: NAC mismatch (expected 659)"])] ∧
     validate_system c9cc [vc01, setNac vc02 100] =
       .ok [("consistency", ["VC02: NAC mismatch (expected 659)"])]) :=
  ⟨by decide, by decide, by decide, C1_amended 100 (by decide) (by decide) (by decide)⟩

/-- The `create_system` parameters with an out-of-range NAC 5000 (all other
parameters at their defaults). -/
def c1badParams : CreateParams :=
  ⟨"trunked", "p25", 2, "127.0.0.1", 62031, "PASSWORD", 100000, 9890,
   "PASSWORD", 8080, none, true, true, true, false, true, none, 0, false,
   none, 0, false, "SKYNET", some 5000, some 1, some 1, "uart", none, none,
   none, none, 0, 0, none, none, none, none, none, none⟩

/-- The store produced by building that system. -/
def c1badStore : Store :=
  match create_system c1badParams [] with
  | .ok (_, _, s) => s
  | .error _ => []

/-- The control instance reloaded from the bad-NAC store. -/
def c1cc : CVal :=
  match load_system c1badStore "trunked" with
  | .ok (cc, _) => cc
  | .error _ => .vint 0

/-- The voice instances reloaded from the bad-NAC store. -/
def c1vcs : List CVal :=
  match load_system c1badStore "trunked" with
  | .ok (_, v) => v
  | .error _ => []

/-- Counterexample to claim C1: a system freshly created by `create_system`
(NAC parameter 5000) and reloaded with `load_system` does NOT validate with
zero range errors — every instance reports the NAC range error (while the
consistency check is silent, all instances agreeing on 5000).  The claim's
first half therefore needs the build parameters restricted to their valid
ranges. -/
theorem C1_counterexample :
    cget c1cc "system.config.nac" = some (.vint 5000) ∧
    validate_system c1cc c1vcs =
      .ok [("control_channel", ["Invalid system.config.nac (must be 0-4095)"]),
           ("voice_channel_1", ["Invalid system.config.nac (must be 0-4095)"]),
           ("voice_channel_2", ["Invalid system.config.nac (must be 0-4095)"])] :=
  ⟨by rfl, by rfl⟩

end DvmSpec
